import Mathlib

/-!
# Verification of the Tencent-meeting webhook bridge

A shallow embedding of the submission-processing pipeline of the
`tencent_meeting_service` repository, together with theorems settling the
frozen claims about it.

Conventions of the embedding:
* absolute instants (`chrono::DateTime<Utc>`) are modelled as `Int` Unix
  seconds; `chrono::Duration::minutes(d)` added to an instant becomes
  `+ d * 60`;
* machine integers (`i64`, `i32`, `usize`) are modelled as `Int`/`Nat`;
  the wrap-around of `i64` arithmetic at `2^63` on absurdly large time
  labels is out of scope of the embedding;
* fallible Rust code (`Result`) becomes `Except`, code that can `panic!`
  on `unwrap` becomes `Option`;
* library calls that touch the outside world (RFC-3339 parsing by
  `chrono`, the HTTP client, `Utc::now`) are passed in as explicit
  parameters, so every function stays pure and executable;
* the CSV-file ledger of `DatabaseService` is modelled as the list of its
  `MeetingRecord` rows (each row written by this program always has all
  14 fields, so the `StringRecord` level with possibly-missing columns is
  not needed).
-/

/-! ## Small helpers on characters and lists (library code used by the source) -/

/-- Split a list of characters on every occurrence of the separator, like
Rust `str::split(char)`: the result is never empty, and consecutive
separators yield empty pieces. -/
def splitC (sep : Char) : List Char → List (List Char)
  | [] => [[]]
  | c :: rest =>
    match splitC sep rest with
    | [] => if c = sep then [[], []] else [[c]]
    | piece :: pieces =>
      if c = sep then [] :: piece :: pieces else (c :: piece) :: pieces

/-- Rust `str::parse::<i64>()`: optional sign, one or more ASCII digits,
nothing else, result within the `i64` range. -/
def parseI64 (cs : List Char) : Option Int :=
  let (sign, digits) :=
    match cs with
    | '+' :: rest => ((1 : Int), rest)
    | '-' :: rest => ((-1 : Int), rest)
    | _ => ((1 : Int), cs)
  if digits.isEmpty then none
  else if digits.all Char.isDigit then
    let n : Nat := digits.foldl (fun a c => a * 10 + (c.toNat - 48)) 0
    let v : Int := sign * (n : Int)
    if -(2 ^ 63) ≤ v ∧ v < 2 ^ 63 then some v else none
  else none

/-- Substring containment on character lists, modelling Rust
`str::contains(&str)`. -/
def containsSub (hay needle : List Char) : Bool :=
  hay.tails.any (fun t => needle.isPrefixOf t)

/-- ASCII lowercasing of one character.  (Rust `str::to_lowercase` does
full Unicode case folding; the statuses this system compares are CJK and
ASCII strings, on which the two coincide.) -/
def toLowerChar (c : Char) : Char :=
  if 'A' ≤ c ∧ c ≤ 'Z' then Char.ofNat (c.toNat + 32) else c

/-- The character list of the lowercased string. -/
def lowercase (s : String) : List Char :=
  s.data.map toLowerChar

/-! ## Data model (`src/models/form.rs`, `src/models/meeting.rs`,
`src/services/database.rs`, `src/client.rs`) -/

/-- `FormField1Item` (`src/models/form.rs`): one raw slot entry. -/
structure FormField1Item where
  item_name : String
  scheduled_label : String
  number : Int
  scheduled_at : String
  api_code : String
  deriving DecidableEq, Repr, Inhabited

/-- `FormEntry` (`src/models/form.rs`).  The `extra_fields` JSON map is
modelled as an association list of string values (the only access the
verified code performs is a string-valued lookup). -/
structure FormEntry where
  token : String
  field_1 : List FormField1Item
  field_8 : String
  extra_fields : List (String × String)
  reservation_status_fsf_field : String
  deriving DecidableEq, Repr, Inhabited

/-- `FormSubmission` (`src/models/form.rs`). -/
structure FormSubmission where
  form : String
  form_name : String
  entry : FormEntry
  deriving DecidableEq, Repr, Inhabited

/-- `TimeSlot` (`src/models/meeting.rs`); instants as Unix seconds. -/
structure TimeSlot where
  item_name : String
  scheduled_label : String
  number : Int
  start_time : Int
  end_time : Int
  api_code : String
  deriving DecidableEq, Repr, Inhabited

/-- `MeetingResult` (`src/models/meeting.rs`). -/
structure MeetingResult where
  meeting_id : Option String
  merged : Bool
  room_name : String
  time_slots : List String
  success : Bool
  deriving DecidableEq, Repr, Inhabited

/-- `WebhookResponse` (`src/models/meeting.rs`). -/
structure WebhookResponse where
  success : Bool
  message : String
  meetings_count : Nat
  meetings : List MeetingResult
  deriving DecidableEq, Repr, Inhabited

/-- `MeetingRecord` (`src/services/database.rs`): one CSV row of the
ledger, all 14 logical columns. -/
structure MeetingRecord where
  entry_token : String
  form_id : String
  form_name : String
  subject : String
  room_name : String
  scheduled_at : String
  scheduled_label : String
  status : String
  meeting_id : String
  room_id : String
  created_at : String
  cancelled_at : String
  operator_name : String
  operator_id : String
  deriving DecidableEq, Repr, Inhabited

/-- The subset of `CreateMeetingRequest` fields (`src/client.rs`) that the
submission pipeline fills in (`src/services/time_slots.rs`). -/
structure CreateMeetingRequest where
  userid : String
  instanceid : Int
  subject : String
  type_ : Int
  start_time : String
  end_time : String
  location : Option String
  time_zone : Option String
  deriving DecidableEq, Repr, Inhabited

/-- `MeetingInfo` (`src/client.rs`), core fields. -/
structure MeetingInfo where
  subject : String
  meeting_id : String
  meeting_code : String
  start_time : String
  end_time : String
  deriving DecidableEq, Repr, Inhabited

/-- `CreateMeetingResponse` (`src/client.rs`). -/
structure CreateMeetingResponse where
  meeting_number : Int
  meeting_info_list : List MeetingInfo
  deriving DecidableEq, Repr, Inhabited

/-- `BookRoomsRequest` (`src/client.rs`). -/
structure BookRoomsRequest where
  operator_id : String
  operator_id_type : Int
  meeting_room_id_list : List String
  subject_visible : Option Bool
  deriving DecidableEq, Repr, Inhabited

/-- `ReleaseRoomsRequest` (`src/client.rs`). -/
structure ReleaseRoomsRequest where
  operator_id : String
  operator_id_type : Int
  meeting_room_id_list : List String
  deriving DecidableEq, Repr, Inhabited

/-- `CancelMeetingRequest` (`src/client.rs`). -/
structure CancelMeetingRequest where
  userid : String
  instanceid : Int
  reason_code : Int
  meeting_type : Option Int
  sub_meeting_id : Option String
  reason_detail : Option String
  deriving DecidableEq, Repr, Inhabited

/-- The upstream client (`TencentMeetingClient`), abstracted as a bundle
of pure response oracles: each operation maps the request the code builds
to the (fixed, but arbitrary) answer of the environment. -/
structure ClientOracle where
  get_operator_id : String
  get_operator_id_by_name : String → String
  create_meeting : CreateMeetingRequest → Except String CreateMeetingResponse
  book_rooms : String → BookRoomsRequest → Except String Unit
  release_rooms : String → ReleaseRoomsRequest → Except String Unit
  cancel_meeting : String → CancelMeetingRequest → Except String Unit

/-- `AppState` (`src/handlers/api.rs`), minus the shared database handle,
which is threaded explicitly. -/
structure AppState where
  client : ClientOracle
  user_field_name : String
  dept_field_name : String
  xa_room_id : String
  cd_room_id : String
  skip_meeting_creation : Bool
  skip_room_booking : Bool

/-! ## Slot parsing (`src/services/time_slots.rs::parse_time_slot`) -/

/-- The closure `parse_time` inside `parse_time_slot`: split `"HH:MM"` on
`:`; each fragment parses as `i64` or defaults to `0`. -/
def parse_hm (time_str : List Char) : Int × Int :=
  let parts := splitC ':' time_str
  let hour := (parts.head?.bind parseI64).getD 0
  let minute := ((parts.get? 1).bind parseI64).getD 0
  (hour, minute)

/-- The duration (in minutes) that `parse_time_slot` derives from a
`scheduled_label`, factored out of the function body: split the label on
spaces, take the second piece, split it on `-`; if both splits produce at
least two pieces, apply the overnight-aware difference of the two `HH:MM`
fragments, otherwise keep the one-hour default. -/
def labelDurationMins (label : String) : Int :=
  let parts := splitC ' ' label.data
  if 1 < parts.length then
    let time_parts := splitC '-' (parts.getD 1 [])
    if 1 < time_parts.length then
      let s0 := parse_hm (time_parts.getD 0 [])
      let e0 := parse_hm (time_parts.getD 1 [])
      let start_total_mins := s0.1 * 60 + s0.2
      let end_total_mins := e0.1 * 60 + e0.2
      if start_total_mins ≤ end_total_mins then end_total_mins - start_total_mins
      else 24 * 60 + end_total_mins - start_total_mins
    else 60
  else 60

/-- `parse_time_slot` (`src/services/time_slots.rs`).  `rfc` abstracts
`chrono::DateTime::parse_from_rfc3339` (converted to a UTC instant),
`now` abstracts `Utc::now()`. -/
def parse_time_slot (rfc : String → Option Int) (now : Int)
    (reservation : FormField1Item) : Except String TimeSlot :=
  match rfc reservation.scheduled_at with
  | none => .error "Failed to parse scheduled_at time"
  | some parsed_start_time =>
    let original_end_time :=
      parsed_start_time + labelDurationMins reservation.scheduled_label * 60
    if parsed_start_time < now ∧ original_end_time < now then
      .error "Time slot is entirely in the past. Cannot create a meeting for past times."
    else if parsed_start_time < now then
      .ok { item_name := reservation.item_name
            scheduled_label := reservation.scheduled_label
            number := reservation.number
            start_time := now + 2 * 60
            end_time := original_end_time
            api_code := reservation.api_code }
    else
      .ok { item_name := reservation.item_name
            scheduled_label := reservation.scheduled_label
            number := reservation.number
            start_time := parsed_start_time
            end_time := original_end_time
            api_code := reservation.api_code }

/-! ## Merge planner (`src/services/time_slots.rs::find_mergeable_groups`) -/

/-- Stable insertion of a slot into a list already sorted by
`start_time`; the element being inserted stems from an earlier position
of the original list, so it goes in front of equal keys — this makes
`sortByStart` extensionally equal to Rust's stable `sort_by_key`. -/
def insertByStart (x : TimeSlot) : List TimeSlot → List TimeSlot
  | [] => [x]
  | y :: ys => if x.start_time ≤ y.start_time then x :: y :: ys else y :: insertByStart x ys

/-- Stable sort by `start_time`, modelling `sort_by_key(|s| s.start_time)`. -/
def sortByStart : List TimeSlot → List TimeSlot
  | [] => []
  | x :: xs => insertByStart x (sortByStart xs)

/-- The inner walk of `find_mergeable_groups`: the current group is
`pre ++ [last]`; a slot that starts exactly when `last` ends joins the
group, otherwise the group is closed and a new one starts. -/
def runsAux (pre : List TimeSlot) (lastSlot : TimeSlot) :
    List TimeSlot → List (List TimeSlot)
  | [] => [pre ++ [lastSlot]]
  | s :: rest =>
    if lastSlot.end_time = s.start_time then
      runsAux (pre ++ [lastSlot]) s rest
    else
      (pre ++ [lastSlot]) :: runsAux [] s rest

/-- The per-room grouping walk: started with the first slot of the sorted
bucket as the initial current group. -/
def findRuns : List TimeSlot → List (List TimeSlot)
  | [] => []
  | s :: rest => runsAux [] s rest

/-- `find_mergeable_groups` (`src/services/time_slots.rs`).  The Rust
buckets the slots into a `HashMap` keyed by `item_name`; its iteration
order is unspecified, which the embedding fixes as one deterministic
order of the distinct keys (`dedup` of the name list).  Each bucket keeps
the input order of its slots (`entry(..).or_default().push`), is sorted
stably by `start_time` and then chunked into contiguous runs. -/
def find_mergeable_groups (slots : List TimeSlot) : List (List TimeSlot) :=
  if slots.isEmpty then []
  else
    let keys := (slots.map TimeSlot.item_name).dedup
    (keys.map (fun k =>
      findRuns (sortByStart (slots.filter (fun s => s.item_name == k))))).flatten

/-! ## Ledger (`src/services/database.rs`) -/

/-- Abstracts `chrono`'s `DateTime::to_rfc3339` rendering of an instant.
The rendered string is stored in the `scheduled_at` column and never
inspected again by any code under verification, so an injective
placeholder rendering suffices. -/
def to_rfc3339 (t : Int) : String :=
  toString t

/-- `DatabaseService::find_all_meetings_by_token`: all rows whose first
column equals the token. -/
def find_all_meetings_by_token (db : List MeetingRecord) (entry_token : String) :
    List MeetingRecord :=
  db.filter (fun r => r.entry_token == entry_token)

/-- The `MeetingRecord` literal both `store_*` functions build (fields
identical up to the scheduled time columns). -/
def mkMeetingRecord (form : FormSubmission) (meeting_id room_name room_id : String)
    (scheduled_at scheduled_label nowStr op_name op_id : String) : MeetingRecord :=
  { entry_token := form.entry.token
    form_id := form.form
    form_name := form.form_name
    subject := form.entry.field_8
    room_name := room_name
    scheduled_at := scheduled_at
    scheduled_label := scheduled_label
    status := form.entry.reservation_status_fsf_field
    meeting_id := meeting_id
    room_id := room_id
    created_at := nowStr
    cancelled_at := ""
    operator_name := op_name
    operator_id := op_id }

/-- `DatabaseService::store_meeting_with_time_slot`: skip the insertion if
a row with the same token, same status and same `scheduled_label` exists,
otherwise append one row.  `nowStr` abstracts `Utc::now().to_rfc3339()`. -/
def store_meeting_with_time_slot (db : List MeetingRecord) (form : FormSubmission)
    (meeting_id room_name room_id : String) (time_slot : TimeSlot)
    (operator_name operator_id nowStr : String) : List MeetingRecord :=
  let scheduled_label := time_slot.scheduled_label
  let is_duplicate := (find_all_meetings_by_token db form.entry.token).any
    (fun record => record.status == form.entry.reservation_status_fsf_field &&
      record.scheduled_label == scheduled_label)
  if is_duplicate then db
  else db ++ [mkMeetingRecord form meeting_id room_name room_id
    (to_rfc3339 time_slot.start_time) scheduled_label nowStr operator_name operator_id]

/-- The combined label `store_merged_meeting` computes:
`"{date} {first_time}-{last_time}"` from the first and last slot of the
list sorted by start time (empty-string components when the labels lack
the expected shape). -/
def merged_scheduled_label (time_slots : List TimeSlot) : String :=
  match sortByStart time_slots with
  | [] => ""
  | first :: rest =>
    let lastSlot := rest.getLastD first
    let first_time := (splitC '-' ((splitC ' ' first.scheduled_label.data).getD 1 [])).getD 0 []
    let last_time := (splitC '-' ((splitC ' ' lastSlot.scheduled_label.data).getD 1 [])).getD 1 []
    let date := (splitC ' ' first.scheduled_label.data).getD 0 []
    String.mk (date ++ [' '] ++ first_time ++ ['-'] ++ last_time)

/-- `DatabaseService::store_merged_meeting`.  The Rust `unwrap()`s the
first and last element of the sorted slots, panicking on an empty list,
which the embedding renders as `none`. -/
def store_merged_meeting (db : List MeetingRecord) (form : FormSubmission)
    (meeting_id room_name room_id : String) (time_slots : List TimeSlot)
    (operator_name operator_id nowStr : String) : Option (List MeetingRecord) :=
  match sortByStart time_slots with
  | [] => none
  | first :: _ =>
    let combined_label := merged_scheduled_label time_slots
    let is_duplicate := (find_all_meetings_by_token db form.entry.token).any
      (fun record => record.status == form.entry.reservation_status_fsf_field &&
        record.scheduled_label == combined_label)
    if is_duplicate then some db
    else some (db ++ [mkMeetingRecord form meeting_id room_name room_id
      (to_rfc3339 first.start_time) combined_label nowStr operator_name operator_id])

/-- `DatabaseService::store_meeting` (kept for backward compatibility):
parse the first form slot and delegate, or append a `"No time specified"`
row if the form has no slots. -/
def store_meeting (rfc : String → Option Int) (now : Int) (db : List MeetingRecord)
    (form : FormSubmission) (meeting_id room_name room_id : String)
    (operator_name operator_id nowStr : String) : Except String (List MeetingRecord) :=
  match form.entry.field_1.head? with
  | some first_slot =>
    match parse_time_slot rfc now first_slot with
    | .error e => .error ("Failed to parse time slot: " ++ e)
    | .ok parsed_slot =>
      .ok (store_meeting_with_time_slot db form meeting_id room_name room_id parsed_slot
        operator_name operator_id nowStr)
  | none =>
    .ok (db ++ [mkMeetingRecord form meeting_id room_name room_id
      nowStr "No time specified" nowStr operator_name operator_id])

/-- The row-selection test of `DatabaseService::cancel_meeting`: matching
token, status one of the `RESERVED` synonyms and not one of the
`CANCELLED` synonyms (the last conjunct is redundant but kept from the
source). -/
def cancel_target (entry_token : String) (r : MeetingRecord) : Bool :=
  let is_reserved := r.status == "Reserved" || r.status == "已预约"
  let is_cancelled := r.status == "Cancelled" || r.status == "已取消"
  r.entry_token == entry_token && (is_reserved && !is_cancelled)

/-- The row update of `cancel_meeting`: column 7 becomes `"已取消"`,
column 11 becomes the current time. -/
def cancelRow (nowStr : String) (r : MeetingRecord) : MeetingRecord :=
  { r with status := "已取消", cancelled_at := nowStr }

/-- The record loop of `cancel_meeting`: rewrite matching rows, keep the
rest, and collect the `(meeting_id, room_id)` pairs of the rewritten rows
in file order. -/
def cancel_loop (entry_token nowStr : String) :
    List MeetingRecord → List MeetingRecord × List (String × String)
  | [] => ([], [])
  | r :: rest =>
    let (rs, cs) := cancel_loop entry_token nowStr rest
    if cancel_target entry_token r then
      (cancelRow nowStr r :: rs, (r.meeting_id, r.room_id) :: cs)
    else
      (r :: rs, cs)

/-- `DatabaseService::cancel_meeting`.  (At the `MeetingRecord` level each
row always has its `meeting_id` and `room_id` columns, so the source's
missing-column fallback branch is unreachable; when no row matches the
source skips the file rewrite, which coincides with writing back the
unchanged rows.) -/
def cancel_meeting (db : List MeetingRecord) (entry_token nowStr : String) :
    List MeetingRecord × List (String × String) :=
  cancel_loop entry_token nowStr db

/-! ### Ledger theorems (claims C1 and C2) -/

/-- The duplicate identity of the ledger: same token, same
`scheduled_label`, same status. -/
def ledger_matches (token label status : String) (r : MeetingRecord) : Bool :=
  r.entry_token == token && (r.status == status && r.scheduled_label == label)

/-- Counterexample to C2 as stated: a ledger with two `RESERVED` rows for
the same token that share the same `(meeting_id, room_id)` pair (stored
under different labels).  `cancel` transitions both rows and returns the
pair twice, so the returned list is not "the set of pairs, once each". -/
def c2row1 : MeetingRecord :=
  { entry_token := "tok", form_id := "f", form_name := "n", subject := "s"
    room_name := "Room A", scheduled_at := "sa"
    scheduled_label := "2035-01-01 09:00-10:00", status := "Reserved"
    meeting_id := "m1", room_id := "r1", created_at := "c", cancelled_at := ""
    operator_name := "o", operator_id := "oid" }

def c2row2 : MeetingRecord :=
  { c2row1 with scheduled_label := "2035-01-01 10:00-11:00" }

/-! ### Slot-parser theorems (claims C6, C7, C10) -/

/-- Follows the spec's words (§4.4, steps 2–3): the duration in minutes
derived from the two `HH:MM` fragments of the label's time part is
`e - s` when `e >= s` and `1440 + e - s` otherwise (overnight); when the
label has no time part or no dash, the duration defaults to 60 minutes. -/
def duration_minutes_spec (label : String) : Int :=
  let parts := splitC ' ' label.data
  if 1 < parts.length then
    let fragments := splitC '-' (parts.getD 1 [])
    if 1 < fragments.length then
      let sHM := parse_hm (fragments.getD 0 [])
      let eHM := parse_hm (fragments.getD 1 [])
      let s := sHM.1 * 60 + sHM.2
      let e := eHM.1 * 60 + eHM.2
      if e ≥ s then e - s else 1440 + e - s
    else 60
  else 60

/-- Whether the slot parser rejects the entry (`Err` in the source). -/
def parseFails (rfc : String → Option Int) (now : Int) (r : FormField1Item) : Bool :=
  match parse_time_slot rfc now r with
  | .error _ => true
  | .ok _ => false

/-- Counterexample input for C7: a label whose two fragments coincide
(`09:00-09:00`), making the computed duration zero. -/
def rC7 : FormField1Item :=
  { item_name := "Room A", scheduled_label := "2035-01-01 09:00-09:00"
    number := 1, scheduled_at := "sa", api_code := "c" }

/-- The slot the parser actually produces on `rC7` with the start
candidate at instant 1000 and `now = 0`: start and end instants are
equal. -/
def slotC7 : TimeSlot :=
  { item_name := "Room A", scheduled_label := "2035-01-01 09:00-09:00"
    number := 1, start_time := 1000, end_time := 1000, api_code := "c" }

/-- Witness input for C7: a one-hour label, start candidate in the
future. -/
def rW7 : FormField1Item :=
  { item_name := "Room A", scheduled_label := "2035-01-01 09:00-10:00"
    number := 1, scheduled_at := "sa", api_code := "c" }

def slotW7 : TimeSlot :=
  { item_name := "Room A", scheduled_label := "2035-01-01 09:00-10:00"
    number := 1, start_time := 200, end_time := 3800, api_code := "c" }

/-- Witness input for C6: the canonical one-hour label. -/
def rW6 : FormField1Item :=
  { item_name := "Room A", scheduled_label := "2035-04-01 09:00-10:00"
    number := 1, scheduled_at := "sa", api_code := "c" }

def slotW6 : TimeSlot :=
  { item_name := "Room A", scheduled_label := "2035-04-01 09:00-10:00"
    number := 1, start_time := 0, end_time := 3600, api_code := "c" }

/-- Witness fixtures for C1. -/
def formW1 : FormSubmission :=
  { form := "f1", form_name := "西安会议室预约"
    entry := { token := "tokW", field_1 := [], field_8 := "subj"
               extra_fields := [], reservation_status_fsf_field := "已预约" } }

def slotW1 : TimeSlot :=
  { item_name := "Room A", scheduled_label := "2035-04-01 09:00-10:00"
    number := 1, start_time := 100, end_time := 3700, api_code := "c" }

/-! ## Submission orchestrator (`src/handlers/api.rs` and the meeting
creation helpers of `src/services/time_slots.rs`) -/

/-- `get_location_for_form` (`src/services/time_slots.rs`). -/
def get_location_for_form (form_name room_name : String) : String :=
  if form_name == "西安会议室预约" then "西安-大会议室"
  else if form_name == "成都会议室预约" then "成都-天府广场"
  else room_name ++ " (Unknown Location)"

/-- `get_room_id_for_form` (`src/services/time_slots.rs`): unknown form
names fall back to the Xi'an room id. -/
def get_room_id_for_form (form_name xa_room_id cd_room_id : String) : String :=
  if form_name == "西安会议室预约" then xa_room_id
  else if form_name == "成都会议室预约" then cd_room_id
  else xa_room_id

/-- `get_operator_info` (`src/services/time_slots.rs`): read the operator
name from the configured extra field (defaulting to `"default"`) and
resolve it through the client's registry. -/
def get_operator_info (client : ClientOracle) (form : FormSubmission)
    (user_field_name : String) : String × String :=
  let operator_name :=
    match form.entry.extra_fields.find? (fun p => p.1 == user_field_name) with
    | some p => p.2
    | none => "default"
  (operator_name, client.get_operator_id_by_name operator_name)

/-- `get_room_id` (`src/handlers/api.rs`). -/
def get_room_id (state : AppState) (form : FormSubmission) : String :=
  get_room_id_for_form form.form_name state.xa_room_id state.cd_room_id

/-- `create_meeting_with_time_slot` (`src/services/time_slots.rs`): build
the create request for one slot, call upstream; an empty
`meeting_info_list` still counts as success with `meeting_id = None`; an
upstream error surfaces as HTTP 500. -/
def create_meeting_with_time_slot (client : ClientOracle) (_dept_field_name : String)
    (form : FormSubmission) (time_slot : TimeSlot) (user_field_name : String) :
    Except Nat MeetingResult :=
  let info := get_operator_info client form user_field_name
  let meeting_request : CreateMeetingRequest :=
    { userid := info.2, instanceid := 32, subject := form.entry.field_8, type_ := 0
      start_time := toString time_slot.start_time, end_time := toString time_slot.end_time
      location := some (get_location_for_form form.form_name time_slot.item_name)
      time_zone := some "Asia/Shanghai" }
  match client.create_meeting meeting_request with
  | .ok response =>
    if response.meeting_info_list.isEmpty then
      .ok { meeting_id := none, merged := false, room_name := time_slot.item_name
            time_slots := [time_slot.scheduled_label], success := true }
    else
      .ok { meeting_id := some (response.meeting_info_list.headD default).meeting_id
            merged := false, room_name := time_slot.item_name
            time_slots := [time_slot.scheduled_label], success := true }
  | .error _ => .error 500

/-- `create_merged_meeting` (`src/services/time_slots.rs`): merge the
sorted slots into one request spanning first start to last end. -/
def create_merged_meeting (client : ClientOracle) (_dept_field_name : String)
    (form : FormSubmission) (time_slots : List TimeSlot) (user_field_name : String) :
    Except Nat MeetingResult :=
  if time_slots.isEmpty then .error 400
  else
    let sorted_slots := sortByStart time_slots
    let start_time := (sorted_slots.headD default).start_time
    let end_time := (sorted_slots.getLastD default).end_time
    let room_name := (sorted_slots.headD default).item_name
    let time_slot_labels := sorted_slots.map (fun s => s.scheduled_label)
    let info := get_operator_info client form user_field_name
    let meeting_request : CreateMeetingRequest :=
      { userid := info.2, instanceid := 32, subject := form.entry.field_8, type_ := 0
        start_time := toString start_time, end_time := toString end_time
        location := some (get_location_for_form form.form_name room_name)
        time_zone := some "Asia/Shanghai" }
    match client.create_meeting meeting_request with
    | .ok response =>
      if response.meeting_info_list.isEmpty then
        .ok { meeting_id := none, merged := true, room_name := room_name
              time_slots := time_slot_labels, success := true }
      else
        .ok { meeting_id := some (response.meeting_info_list.headD default).meeting_id
              merged := true, room_name := room_name
              time_slots := time_slot_labels, success := true }
    | .error _ => .error 500

/-- The slot-parsing loop of `handle_form_submission`: the first parse
failure rejects the whole submission with HTTP 400. -/
def parse_all (rfc : String → Option Int) (now : Int) :
    List FormField1Item → Except Nat (List TimeSlot)
  | [] => .ok []
  | r :: rest =>
    match parse_time_slot rfc now r with
    | .ok slot =>
      match parse_all rfc now rest with
      | .ok slots => .ok (slot :: slots)
      | .error e => .error e
    | .error _ => .error 400

/-- The release-then-cancel loop of the cancellation path, returning the
`(successful, failed)` counters. -/
def cancellation_counts (client : ClientOracle) :
    List (String × String) → Nat × Nat
  | [] => (0, 0)
  | (meeting_id, room_id) :: rest =>
    let counts := cancellation_counts client rest
    let release_request : ReleaseRoomsRequest :=
      { operator_id := client.get_operator_id, operator_id_type := 1
        meeting_room_id_list := [room_id] }
    match client.release_rooms meeting_id release_request with
    | .ok _ =>
      let cancel_request : CancelMeetingRequest :=
        { userid := client.get_operator_id, instanceid := 32, reason_code := 1
          meeting_type := none, sub_meeting_id := none
          reason_detail := some "Form submission cancelled" }
      match client.cancel_meeting meeting_id cancel_request with
      | .ok _ => (counts.1 + 1, counts.2)
      | .error _ => (counts.1, counts.2 + 1)
    | .error _ => (counts.1, counts.2 + 1)

/-- The summary response built at the end of the reservation path. -/
def mk_final_response (meeting_results : List MeetingResult) (all_successful : Bool)
    (slots_count : Nat) : WebhookResponse :=
  let successful_count := (meeting_results.filter (fun r => r.meeting_id.isSome)).length
  let merged_count := (meeting_results.filter (fun r => r.merged)).length
  let message :=
    if 0 < merged_count then
      "Created " ++ toString successful_count ++ " meetings (" ++ toString merged_count ++
        " merged) from " ++ toString slots_count ++ " time slots"
    else
      "Created " ++ toString successful_count ++ " meetings from " ++
        toString slots_count ++ " time slots"
  { success := all_successful && decide (0 < successful_count), message := message
    meetings_count := meeting_results.length, meetings := meeting_results }

/-- The per-group loop of the reservation path (`for (i, group) in
mergeable_groups.iter().enumerate()`), threading the accumulated meeting
results, the `all_successful` flag and the ledger state. -/
def process_groups (state : AppState) (form : FormSubmission)
    (form_specific_room_id nowStr : String) (i : Nat) (db : List MeetingRecord)
    (all_successful : Bool) (acc : List MeetingResult) :
    List (List TimeSlot) → List MeetingResult × Bool × List MeetingRecord
  | [] => (acc, all_successful, db)
  | group :: groups =>
    if 1 < group.length then
      if state.skip_meeting_creation then
        let result : MeetingResult :=
          { meeting_id := some ("simulation-merged-meeting-" ++ toString i), merged := true
            room_name := (group.headD default).item_name
            time_slots := group.map (fun s => s.scheduled_label), success := true }
        let room_id := get_room_id state form
        let info := get_operator_info state.client form state.user_field_name
        let db2 := (store_merged_meeting db form ("simulation-merged-meeting-" ++ toString i)
          (group.headD default).item_name room_id group info.1 info.2 nowStr).getD db
        process_groups state form form_specific_room_id nowStr (i + 1) db2
          (all_successful && true) (acc ++ [result]) groups
      else
        match create_merged_meeting state.client state.dept_field_name form group
            state.user_field_name with
        | .ok result =>
          match result.meeting_id with
          | some meeting_id =>
            let _ := if !state.skip_room_booking then
                state.client.book_rooms meeting_id
                  { operator_id := state.client.get_operator_id, operator_id_type := 1
                    meeting_room_id_list := [form_specific_room_id]
                    subject_visible := some true }
              else .ok ()
            let room_id := get_room_id state form
            let info := get_operator_info state.client form state.user_field_name
            let db2 := (store_merged_meeting db form meeting_id result.room_name room_id
              group info.1 info.2 nowStr).getD db
            process_groups state form form_specific_room_id nowStr (i + 1) db2
              (all_successful && result.success) (acc ++ [result]) groups
          | none =>
            process_groups state form form_specific_room_id nowStr (i + 1) db
              (all_successful && result.success) (acc ++ [result]) groups
        | .error _ =>
          process_groups state form form_specific_room_id nowStr (i + 1) db
            false acc groups
    else if group.length = 1 then
      if state.skip_meeting_creation then
        let result : MeetingResult :=
          { meeting_id := some ("simulation-meeting-id-" ++ toString i), merged := false
            room_name := (group.headD default).item_name
            time_slots := [(group.headD default).scheduled_label], success := true }
        let room_id := get_room_id state form
        let info := get_operator_info state.client form state.user_field_name
        let db2 := store_meeting_with_time_slot db form
          ("simulation-meeting-id-" ++ toString i) (group.headD default).item_name room_id
          (group.headD default) info.1 info.2 nowStr
        process_groups state form form_specific_room_id nowStr (i + 1) db2
          (all_successful && true) (acc ++ [result]) groups
      else
        match create_meeting_with_time_slot state.client state.dept_field_name form
            (group.headD default) state.user_field_name with
        | .ok result =>
          match result.meeting_id with
          | some meeting_id =>
            let _ := if !state.skip_room_booking then
                state.client.book_rooms meeting_id
                  { operator_id := state.client.get_operator_id, operator_id_type := 1
                    meeting_room_id_list := [form_specific_room_id]
                    subject_visible := some true }
              else .ok ()
            let room_id := get_room_id state form
            let info := get_operator_info state.client form state.user_field_name
            let db2 := store_meeting_with_time_slot db form meeting_id result.room_name
              room_id (group.headD default) info.1 info.2 nowStr
            process_groups state form form_specific_room_id nowStr (i + 1) db2
              (all_successful && result.success) (acc ++ [result]) groups
          | none =>
            process_groups state form form_specific_room_id nowStr (i + 1) db
              (all_successful && result.success) (acc ++ [result]) groups
        | .error _ =>
          process_groups state form form_specific_room_id nowStr (i + 1) db
            false acc groups
    else
      -- empty group: should not happen, logged and skipped
      process_groups state form form_specific_room_id nowStr (i + 1) db
        all_successful acc groups

/-- The fully-merged branch of the reservation path (a single run that
covers every slot).  Note the `Err` case: a `CreateMeeting` failure here
aborts the whole submission with the upstream error status. -/
def fully_merged_branch (state : AppState) (rfc : String → Option Int) (nowI : Int)
    (nowStr : String) (db : List MeetingRecord) (form : FormSubmission)
    (time_slots : List TimeSlot) : Except Nat WebhookResponse × List MeetingRecord :=
  if state.skip_meeting_creation then
    let result : MeetingResult :=
      { meeting_id := some "simulation-merged-meeting", merged := true
        room_name := (time_slots.headD default).item_name
        time_slots := time_slots.map (fun s => s.scheduled_label), success := true }
    let room_id := get_room_id state form
    let info := get_operator_info state.client form state.user_field_name
    let db2 := (store_merged_meeting db form "simulation-merged-meeting"
      (time_slots.headD default).item_name room_id time_slots info.1 info.2 nowStr).getD db
    (.ok (mk_final_response [result] true time_slots.length), db2)
  else
    match create_merged_meeting state.client state.dept_field_name form time_slots
        state.user_field_name with
    | .error e => (.error e, db)
    | .ok result =>
      let all_successful := true && result.success
      if state.skip_meeting_creation then
        -- unreachable inner branch, kept from the source
        let room_id := get_room_id state form
        let info := get_operator_info state.client form state.user_field_name
        let db2 :=
          match store_meeting rfc nowI db form "simulation-meeting-id" result.room_name
              room_id info.1 info.2 nowStr with
          | .ok d => d
          | .error _ => db
        (.ok (mk_final_response [result] all_successful time_slots.length), db2)
      else
        match result.meeting_id with
        | some meeting_id =>
          let _ := if !state.skip_room_booking then
              state.client.book_rooms meeting_id
                { operator_id := state.client.get_operator_id, operator_id_type := 1
                  meeting_room_id_list := [get_room_id_for_form form.form_name
                    state.xa_room_id state.cd_room_id]
                  subject_visible := some true }
            else .ok ()
          let room_id := get_room_id state form
          let info := get_operator_info state.client form state.user_field_name
          let db2 := (store_merged_meeting db form meeting_id result.room_name room_id
            time_slots info.1 info.2 nowStr).getD db
          (.ok (mk_final_response [result] all_successful time_slots.length), db2)
        | none =>
          (.ok (mk_final_response [result] all_successful time_slots.length), db)

/-- `handle_form_submission` (`src/handlers/api.rs`): dispatch on whether
the lowercased status contains `"取消"`; the cancellation path fans out
over the ledger, the reservation path parses, plans and creates.  The
result is the HTTP outcome (`Except` over the numeric status code) plus
the final ledger state. -/
def handle_form_submission (state : AppState) (rfc : String → Option Int) (nowI : Int)
    (nowStr : String) (db : List MeetingRecord) (form : FormSubmission) :
    Except Nat WebhookResponse × List MeetingRecord :=
  let form_specific_room_id := get_room_id state form
  if containsSub (lowercase form.entry.reservation_status_fsf_field) "取消".data then
    let dbAndCancelled := cancel_meeting db form.entry.token nowStr
    let db' := dbAndCancelled.1
    let cancelled_meetings := dbAndCancelled.2
    if cancelled_meetings.isEmpty then
      (.ok { success := false
             message := "No active meetings found with token: " ++ form.entry.token
             meetings_count := 0, meetings := [] }, db')
    else if state.skip_meeting_creation ||
        cancelled_meetings.any (fun p => "simulation-".data.isPrefixOf p.1.data) then
      (.ok { success := true
             message := "Simulation: " ++ toString cancelled_meetings.length ++
               " meetings cancelled successfully"
             meetings_count := 0, meetings := [] }, db')
    else
      let counts := cancellation_counts state.client cancelled_meetings
      if counts.2 = 0 then
        (.ok { success := true
               message := "Successfully cancelled " ++ toString counts.1 ++ " meetings"
               meetings_count := 0, meetings := [] }, db')
      else
        (.ok { success := decide (0 < counts.1)
               message := "Cancelled " ++ toString counts.1 ++ " meetings, but " ++
                 toString counts.2 ++ " failed"
               meetings_count := 0, meetings := [] }, db')
  else
    match parse_all rfc nowI form.entry.field_1 with
    | .error e => (.error e, db)
    | .ok time_slots =>
      let mergeable_groups := find_mergeable_groups time_slots
      if mergeable_groups.length = 1 ∧
          (mergeable_groups.headD []).length = time_slots.length then
        fully_merged_branch state rfc nowI nowStr db form time_slots
      else
        let looped := process_groups state form form_specific_room_id nowStr 0 db true []
          mergeable_groups
        (.ok (mk_final_response looped.1 looped.2.1 time_slots.length), looped.2.2)

/-- The upstream call the reservation loop performs for one planned
group: the merged create for runs of two or more slots, the single create
for singleton runs, nothing for (unreachable) empty runs. -/
def group_outcome (client : ClientOracle) (dept ufn : String) (form : FormSubmission)
    (g : List TimeSlot) : Option (Except Nat MeetingResult) :=
  if 1 < g.length then some (create_merged_meeting client dept form g ufn)
  else if g.length = 1 then
    some (create_meeting_with_time_slot client dept form (g.headD default) ufn)
  else none

/-- The meeting outcome a group contributes to the response (none when
its create failed or the group was empty). -/
def group_result (client : ClientOracle) (dept ufn : String) (form : FormSubmission)
    (g : List TimeSlot) : Option MeetingResult :=
  match group_outcome client dept ufn form g with
  | some (.ok r) => some r
  | _ => none

/-- Whether the group's upstream create failed. -/
def group_failed (client : ClientOracle) (dept ufn : String) (form : FormSubmission)
    (g : List TimeSlot) : Bool :=
  match group_outcome client dept ufn form g with
  | some (.error _) => true
  | _ => false

/-- Counterexample to C5 as stated: when the planner produces one fully
merged group covering all slots, a `CreateMeeting` failure makes the
handler `return Err(e)` — aborting the submission with the upstream
error status instead of a 200 response. -/
def oracleC5 : ClientOracle :=
  { get_operator_id := "admin"
    get_operator_id_by_name := fun _ => "default-id"
    create_meeting := fun _ => .error "upstream failure"
    book_rooms := fun _ _ => .ok ()
    release_rooms := fun _ _ => .ok ()
    cancel_meeting := fun _ _ => .ok () }

def stateC5 : AppState :=
  { client := oracleC5, user_field_name := "ufn", dept_field_name := "dfn"
    xa_room_id := "room1", cd_room_id := "room2"
    skip_meeting_creation := false, skip_room_booking := false }

def itemC5 : FormField1Item :=
  { item_name := "Conference Room A", scheduled_label := "2035-03-30 09:00-10:00"
    number := 1, scheduled_at := "2035-03-30T01:00:00.000Z", api_code := "CODE1" }

def formC5 : FormSubmission :=
  { form := "test_form", form_name := "Test Form"
    entry := { token := "tok-c5", field_1 := [itemC5]
               field_8 := "Test Meeting", extra_fields := []
               reservation_status_fsf_field := "已预约" } }

/-- Witness fixtures for C5: two different rooms, the upstream failing
only for Room A. -/
def respUpC5w : CreateMeetingResponse :=
  { meeting_number := 1
    meeting_info_list := [{ subject := "Mixed", meeting_id := "m-b", meeting_code := "code"
                            start_time := "", end_time := "" }] }

def oracleC5w : ClientOracle :=
  { get_operator_id := "admin"
    get_operator_id_by_name := fun _ => "default-id"
    create_meeting := fun req =>
      if req.location == some "Room A (Unknown Location)" then .error "boom"
      else .ok respUpC5w
    book_rooms := fun _ _ => .ok ()
    release_rooms := fun _ _ => .ok ()
    cancel_meeting := fun _ _ => .ok () }

def stateC5w : AppState :=
  { client := oracleC5w, user_field_name := "ufn", dept_field_name := "dfn"
    xa_room_id := "room1", cd_room_id := "room2"
    skip_meeting_creation := false, skip_room_booking := false }

def itemC5a : FormField1Item :=
  { item_name := "Room A", scheduled_label := "2035-03-30 09:00-10:00"
    number := 1, scheduled_at := "a", api_code := "CA" }

def itemC5b : FormField1Item :=
  { item_name := "Room B", scheduled_label := "2035-03-30 09:00-10:00"
    number := 1, scheduled_at := "b", api_code := "CB" }

def slotC5a : TimeSlot :=
  { item_name := "Room A", scheduled_label := "2035-03-30 09:00-10:00"
    number := 1, start_time := 1000, end_time := 4600, api_code := "CA" }

def slotC5b : TimeSlot :=
  { item_name := "Room B", scheduled_label := "2035-03-30 09:00-10:00"
    number := 1, start_time := 1000, end_time := 4600, api_code := "CB" }

def formC5w : FormSubmission :=
  { form := "test_form", form_name := "Test Form"
    entry := { token := "tok-mixed", field_1 := [itemC5a, itemC5b]
               field_8 := "Mixed", extra_fields := []
               reservation_status_fsf_field := "已预约" } }

/-- Fixtures for C4: a submission whose status is neither a `RESERVED`
nor a `CANCELLED` synonym, with one valid future slot; and a `RESERVED`
submission with no slots at all.  The upstream create succeeds. -/
def infoC4 : MeetingInfo :=
  { subject := "Test Meeting", meeting_id := "m-c4", meeting_code := "code"
    start_time := "", end_time := "" }

def respUpC4 : CreateMeetingResponse :=
  { meeting_number := 1, meeting_info_list := [infoC4] }

def oracleC4 : ClientOracle :=
  { get_operator_id := "admin"
    get_operator_id_by_name := fun _ => "default-id"
    create_meeting := fun _ => .ok respUpC4
    book_rooms := fun _ _ => .ok ()
    release_rooms := fun _ _ => .ok ()
    cancel_meeting := fun _ _ => .ok () }

def stateC4 : AppState :=
  { client := oracleC4, user_field_name := "ufn", dept_field_name := "dfn"
    xa_room_id := "room1", cd_room_id := "room2"
    skip_meeting_creation := false, skip_room_booking := false }

def itemC4 : FormField1Item :=
  { item_name := "Conference Room A", scheduled_label := "2035-03-30 09:00-10:00"
    number := 1, scheduled_at := "2035-03-30T01:00:00.000Z", api_code := "CODE1" }

def formC4 : FormSubmission :=
  { form := "test_form", form_name := "Test Form"
    entry := { token := "unknown_status_token", field_1 := [itemC4]
               field_8 := "Test Meeting", extra_fields := []
               reservation_status_fsf_field := "UNKNOWN_STATUS" } }

def formC4empty : FormSubmission :=
  { form := "test_form", form_name := "Test Form"
    entry := { token := "tok-empty", field_1 := []
               field_8 := "Test Meeting", extra_fields := []
               reservation_status_fsf_field := "已预约" } }

/-! ## Webhook authentication (claim C9) -/

/-- Modelled from the spec: the webhook auth gate of the final
`handle_form_submission`.  The repository's tests construct an `AppState`
with a `webhook_auth_token : Option String` and pass
`WebhookQueryParams { auth }`, and expect 401 on a mismatch, but the
handler revision implementing the check is not part of the `src/`
snapshot (only its tests reference `WebhookQueryParams`).  Per the spec:
`auth` is required iff a webhook auth token is configured; a mismatch
yields 401. -/
def webhook_auth_check (webhook_auth_token auth_param : Option String) : Bool :=
  match webhook_auth_token with
  | none => true
  | some t => auth_param == some t

/-- Modelled from the spec: the authenticated webhook entry point —
reject with 401 before any processing when the gate fails, otherwise run
the submission handler unchanged. -/
def handle_form_submission_with_auth (webhook_auth_token auth_param : Option String)
    (state : AppState) (rfc : String → Option Int) (nowI : Int) (nowStr : String)
    (db : List MeetingRecord) (form : FormSubmission) :
    Except Nat WebhookResponse × List MeetingRecord :=
  if webhook_auth_check webhook_auth_token auth_param then
    handle_form_submission state rfc nowI nowStr db form
  else
    (.error 401, db)

/-- Fixtures for the C9 witness. -/
def oracleC9 : ClientOracle :=
  { get_operator_id := "admin"
    get_operator_id_by_name := fun _ => "default-id"
    create_meeting := fun _ => .error "unreachable"
    book_rooms := fun _ _ => .ok ()
    release_rooms := fun _ _ => .ok ()
    cancel_meeting := fun _ _ => .ok () }

def stateC9 : AppState :=
  { client := oracleC9, user_field_name := "ufn", dept_field_name := "dfn"
    xa_room_id := "room1", cd_room_id := "room2"
    skip_meeting_creation := false, skip_room_booking := false }

def formC9 : FormSubmission :=
  { form := "f", form_name := "n"
    entry := { token := "tok-c9", field_1 := [], field_8 := "s"
               extra_fields := [], reservation_status_fsf_field := "已预约" } }

/-! ## Signer (`src/auth.rs`): HMAC-SHA256, lowercase hex, base64.

The `hmac`/`sha2`/`hex`/`base64` crates the source calls are embedded by
their standard definitions (FIPS 180-4 SHA-256, RFC 2104 HMAC, RFC 4648
base64), over byte lists (`Nat`s below 256). -/

/-- Truncation to 32 bits. -/
def u32 (n : Nat) : Nat := n % 4294967296

/-- 32-bit right rotation (arguments below `2^32`). -/
def rotr32 (n x : Nat) : Nat := u32 (x / 2 ^ n + x % 2 ^ n * 2 ^ (32 - n))

/-- Logical right shift. -/
def shr (n x : Nat) : Nat := x / 2 ^ n

/-- 32-bit complement. -/
def not32 (x : Nat) : Nat := 4294967295 ^^^ x

def shaCh (x y z : Nat) : Nat := (x &&& y) ^^^ (not32 x &&& z)

def shaMaj (x y z : Nat) : Nat := (x &&& y) ^^^ (x &&& z) ^^^ (y &&& z)

def bsig0 (x : Nat) : Nat := rotr32 2 x ^^^ rotr32 13 x ^^^ rotr32 22 x

def bsig1 (x : Nat) : Nat := rotr32 6 x ^^^ rotr32 11 x ^^^ rotr32 25 x

def ssig0 (x : Nat) : Nat := rotr32 7 x ^^^ rotr32 18 x ^^^ shr 3 x

def ssig1 (x : Nat) : Nat := rotr32 17 x ^^^ rotr32 19 x ^^^ shr 10 x

/-- The SHA-256 round constants. -/
def sha256K : List Nat :=
  [1116352408, 1899447441, 3049323471, 3921009573,
   961987163, 1508970993, 2453635748, 2870763221,
   3624381080, 310598401, 607225278, 1426881987,
   1925078388, 2162078206, 2614888103, 3248222580,
   3835390401, 4022224774, 264347078, 604807628,
   770255983, 1249150122, 1555081692, 1996064986,
   2554220882, 2821834349, 2952996808, 3210313671,
   3336571891, 3584528711, 113926993, 338241895,
   666307205, 773529912, 1294757372, 1396182291,
   1695183700, 1986661051, 2177026350, 2456956037,
   2730485921, 2820302411, 3259730800, 3345764771,
   3516065817, 3600352804, 4094571909, 275423344,
   430227734, 506948616, 659060556, 883997877,
   958139571, 1322822218, 1537002063, 1747873779,
   1955562222, 2024104815, 2227730452, 2361852424,
   2428436474, 2756734187, 3204031479, 3329325298]

/-- Working state of the compression function. -/
structure Hash8 where
  a : Nat
  b : Nat
  c : Nat
  d : Nat
  e : Nat
  f : Nat
  g : Nat
  h : Nat
  deriving Repr

/-- The SHA-256 initial hash value. -/
def sha256H0 : Hash8 :=
  ⟨1779033703, 3144134277, 1013904242, 2773480762,
   1359893119, 2600822924, 528734635, 1541459225⟩

/-- Big-endian 8-byte encoding. -/
def be64 (n : Nat) : List Nat :=
  [n / 2 ^ 56 % 256, n / 2 ^ 48 % 256, n / 2 ^ 40 % 256, n / 2 ^ 32 % 256,
   n / 2 ^ 24 % 256, n / 2 ^ 16 % 256, n / 2 ^ 8 % 256, n % 256]

/-- Merkle–Damgård padding: `0x80`, zeros to 56 mod 64, length in bits. -/
def sha256Pad (msg : List Nat) : List Nat :=
  msg ++ 128 :: List.replicate ((119 - msg.length % 64) % 64) 0 ++ be64 (8 * msg.length)

/-- Big-endian 32-bit words from bytes. -/
def bytesToWords : List Nat → List Nat
  | a :: b :: c :: d :: rest => (a * 2 ^ 24 + b * 2 ^ 16 + c * 2 ^ 8 + d) :: bytesToWords rest
  | _ => []

/-- One step of the message-schedule extension: append
`σ1(w[t+14]) + w[t+9] + σ0(w[t+1]) + w[t]` for the current length `16+t`. -/
def extendStep (ws : List Nat) : List Nat :=
  ws ++ [u32 (ssig1 (ws.getD (ws.length - 2) 0) + ws.getD (ws.length - 7) 0 +
    ssig0 (ws.getD (ws.length - 15) 0) + ws.getD (ws.length - 16) 0)]

/-- The 64-word message schedule of one block. -/
def msgSchedule (block : List Nat) : List Nat :=
  (List.range 48).foldl (fun ws _ => extendStep ws) (bytesToWords block)

/-- One compression round. -/
def sha256Round (s : Hash8) (kw : Nat × Nat) : Hash8 :=
  let t1 := u32 (s.h + bsig1 s.e + shaCh s.e s.f s.g + kw.1 + kw.2)
  let t2 := u32 (bsig0 s.a + shaMaj s.a s.b s.c)
  ⟨u32 (t1 + t2), s.a, s.b, s.c, u32 (s.d + t1), s.e, s.f, s.g⟩

/-- Compress one 64-byte block into the running hash. -/
def sha256Compress (s : Hash8) (block : List Nat) : Hash8 :=
  let r := (sha256K.zip (msgSchedule block)).foldl sha256Round s
  ⟨u32 (s.a + r.a), u32 (s.b + r.b), u32 (s.c + r.c), u32 (s.d + r.d),
   u32 (s.e + r.e), u32 (s.f + r.f), u32 (s.g + r.g), u32 (s.h + r.h)⟩

/-- Split into 64-byte blocks. -/
def chunks64 : List Nat → List (List Nat)
  | [] => []
  | x :: rest => ((x :: rest).take 64) :: chunks64 ((x :: rest).drop 64)
termination_by l => l.length
decreasing_by
  simp only [List.length_drop, List.length_cons]
  omega

/-- Big-endian bytes of one 32-bit word. -/
def wordBytes (w : Nat) : List Nat :=
  [w / 2 ^ 24 % 256, w / 2 ^ 16 % 256, w / 2 ^ 8 % 256, w % 256]

/-- SHA-256 of a byte list. -/
def sha256 (msg : List Nat) : List Nat :=
  let fin := (chunks64 (sha256Pad msg)).foldl sha256Compress sha256H0
  wordBytes fin.a ++ wordBytes fin.b ++ wordBytes fin.c ++ wordBytes fin.d ++
    wordBytes fin.e ++ wordBytes fin.f ++ wordBytes fin.g ++ wordBytes fin.h

/-- HMAC-SHA256 (RFC 2104), block size 64 — what
`Hmac::<Sha256>::new_from_slice` computes for any key length. -/
def hmacSha256 (key msg : List Nat) : List Nat :=
  let k0 := if 64 < key.length then sha256 key else key
  let kp := k0 ++ List.replicate (64 - k0.length) 0
  sha256 ((kp.map (fun b => b ^^^ 92)) ++ sha256 ((kp.map (fun b => b ^^^ 54)) ++ msg))

/-- Lowercase hex digit. -/
def hexDigitChar (n : Nat) : Char :=
  if n < 10 then Char.ofNat (48 + n) else Char.ofNat (87 + n)

/-- Lowercase hex encoding (`hex::encode`). -/
def hexEncode (bs : List Nat) : String :=
  String.mk (bs.flatMap (fun b => [hexDigitChar (b / 16), hexDigitChar (b % 16)]))

/-- ASCII lowercase hex digit test. -/
def isHexDigitChar (c : Char) : Bool :=
  ('0' ≤ c && c ≤ '9') || ('a' ≤ c && c ≤ 'f')

/-- UTF-8 bytes of one character. -/
def utf8Char (c : Char) : List Nat :=
  let n := c.toNat
  if n < 128 then [n]
  else if n < 2048 then [192 + n / 64, 128 + n % 64]
  else if n < 65536 then [224 + n / 4096, 128 + n / 64 % 64, 128 + n % 64]
  else [240 + n / 262144, 128 + n / 4096 % 64, 128 + n / 64 % 64, 128 + n % 64]

/-- UTF-8 bytes of a string (`str::as_bytes`). -/
def utf8Encode (s : String) : List Nat :=
  s.data.flatMap utf8Char

/-- The base64 alphabet (RFC 4648, standard). -/
def b64Alphabet : List Char :=
  "ABCDEFGHIJKLMNOPQRSTUVWXYZabcdefghijklmnopqrstuvwxyz0123456789+/".data

def b64Char (n : Nat) : Char := b64Alphabet.getD n 'A'

/-- Standard base64 encoding with `=` padding
(`base64::engine::general_purpose::STANDARD.encode`). -/
def b64Encode : List Nat → List Char
  | [] => []
  | [b1] => [b64Char (b1 / 4), b64Char (b1 % 4 * 16), '=', '=']
  | [b1, b2] => [b64Char (b1 / 4), b64Char (b1 % 4 * 16 + b2 / 16),
      b64Char (b2 % 16 * 4), '=']
  | b1 :: b2 :: b3 :: rest =>
    b64Char (b1 / 4) :: b64Char (b1 % 4 * 16 + b2 / 16) ::
      b64Char (b2 % 16 * 4 + b3 / 64) :: b64Char (b3 % 64) :: b64Encode rest

/-- Index of a character in the base64 alphabet. -/
def b64Index : List Char → Char → Nat → Option Nat
  | [], _, _ => none
  | a :: rest, c, i => if a = c then some i else b64Index rest c (i + 1)

def b64DecodeChar (c : Char) : Option Nat := b64Index b64Alphabet c 0

/-- Standard base64 decoding with `=` padding. -/
def b64Decode : List Char → Option (List Nat)
  | [] => some []
  | c1 :: c2 :: c3 :: c4 :: rest =>
    match b64DecodeChar c1, b64DecodeChar c2 with
    | some v1, some v2 =>
      if c3 = '=' then
        if c4 = '=' ∧ rest = [] then some [v1 * 4 + v2 / 16] else none
      else
        match b64DecodeChar c3 with
        | some v3 =>
          if c4 = '=' then
            if rest = [] then some [v1 * 4 + v2 / 16, v2 % 16 * 16 + v3 / 4] else none
          else
            match b64DecodeChar c4, b64Decode rest with
            | some v4, some bytes =>
              some ([v1 * 4 + v2 / 16, v2 % 16 * 16 + v3 / 4, v3 % 4 * 64 + v4] ++ bytes)
            | _, _ => none
        | none => none
    | _, _ => none
  | _ => none

/-- The canonical string `TencentAuth::generate_signature` signs:
`method\nX-TC-Key={id}&X-TC-Nonce={nonce}&X-TC-Timestamp={ts}\nuri\nbody`. -/
def canonical_content (secret_id method uri : String) (timestamp : Int)
    (nonce body : String) : String :=
  method ++ "\n" ++
    ("X-TC-Key=" ++ secret_id ++ "&X-TC-Nonce=" ++ nonce ++ "&X-TC-Timestamp=" ++
      toString timestamp) ++ "\n" ++ uri ++ "\n" ++ body

/-- `TencentAuth::generate_signature` (`src/auth.rs`): HMAC-SHA256 over
the canonical content, hex-encoded lowercase, then the hex string's UTF-8
bytes base64-encoded. -/
def generate_signature (secret_id secret_key method uri : String) (timestamp : Int)
    (nonce body : String) : String :=
  let content := canonical_content secret_id method uri timestamp nonce body
  let hex_hash := hexEncode (hmacSha256 (utf8Encode secret_key) (utf8Encode content))
  String.mk (b64Encode (utf8Encode hex_hash))

/-! ## Theorems -/

/-! ### Merge planner: partition law (claim C3) -/

theorem runsAux_flatten (rest : List TimeSlot) :
    ∀ pre lastSlot, (runsAux pre lastSlot rest).flatten = pre ++ lastSlot :: rest := by
  induction rest with
  | nil => intro pre lastSlot; simp [runsAux]
  | cons s rs ih =>
    intro pre lastSlot
    by_cases h : lastSlot.end_time = s.start_time
    · simp [runsAux, h, ih]
    · simp [runsAux, h, ih]

theorem findRuns_flatten (l : List TimeSlot) : (findRuns l).flatten = l := by
  cases l with
  | nil => simp [findRuns]
  | cons s rest => simp [findRuns, runsAux_flatten]

theorem insertByStart_perm (x : TimeSlot) (l : List TimeSlot) :
    (insertByStart x l).Perm (x :: l) := by
  induction l with
  | nil => simp [insertByStart]
  | cons y ys ih =>
    by_cases h : x.start_time ≤ y.start_time
    · simp [insertByStart, h]
    · simp only [insertByStart, h, if_neg, if_false]
      exact ((ih.cons y).trans (List.Perm.swap x y ys))

theorem sortByStart_perm (l : List TimeSlot) : (sortByStart l).Perm l := by
  induction l with
  | nil => simp [sortByStart]
  | cons x xs ih =>
    exact (insertByStart_perm x (sortByStart xs)).trans (ih.cons x)

/-- Joining per-key runs over a duplicate-free list of keys covering all
slots recovers a permutation of the slots. -/
theorem flatten_runs_perm (keys : List String) :
    ∀ l : List TimeSlot, keys.Nodup → (∀ x ∈ l, x.item_name ∈ keys) →
    (((keys.map (fun k =>
      findRuns (sortByStart (l.filter (fun s => s.item_name == k))))).flatten).flatten).Perm l := by
  induction keys with
  | nil =>
    intro l _ hcov
    have : l = [] := by
      cases l with
      | nil => rfl
      | cons a as => exact absurd (hcov a (by simp)) (by simp)
    simp [this]
  | cons k ks ih =>
    intro l hnd hcov
    have hnd' : ks.Nodup := (List.nodup_cons.mp hnd).2
    have hk : k ∉ ks := (List.nodup_cons.mp hnd).1
    -- the remaining keys select from the slots not named k
    have hfilter : ∀ k' ∈ ks,
        l.filter (fun s => s.item_name == k') =
        (l.filter (fun s => !(s.item_name == k))).filter (fun s => s.item_name == k') := by
      intro k' hk'
      have hkk : k' ≠ k := fun h => hk (h ▸ hk')
      rw [List.filter_filter]
      apply List.filter_congr
      intro x _
      by_cases hx : x.item_name = k'
      · have hxk : ¬ x.item_name = k := fun h => hkk (hx ▸ h)
        simp [hx, hxk, hkk]
      · simp [hx]
    have hmapeq :
        ks.map (fun k' => findRuns (sortByStart (l.filter (fun s => s.item_name == k')))) =
        ks.map (fun k' => findRuns (sortByStart
          ((l.filter (fun s => !(s.item_name == k))).filter (fun s => s.item_name == k')))) := by
      apply List.map_congr_left
      intro k' hk'
      rw [hfilter k' hk']
    have hcov' : ∀ x ∈ l.filter (fun s => !(s.item_name == k)), x.item_name ∈ ks := by
      intro x hx
      have hmem := List.mem_of_mem_filter hx
      have hprop := List.of_mem_filter hx
      have hne : ¬ (x.item_name = k) := by simpa using hprop
      have := hcov x hmem
      simp only [List.mem_cons] at this
      exact this.resolve_left hne
    have ihrest := ih (l.filter (fun s => !(s.item_name == k))) hnd' hcov'
    have hhead :
        ((findRuns (sortByStart (l.filter (fun s => s.item_name == k)))).flatten).Perm
          (l.filter (fun s => s.item_name == k)) := by
      rw [findRuns_flatten]
      exact sortByStart_perm _
    have hsplit :
        ((((k :: ks).map (fun k' =>
            findRuns (sortByStart (l.filter (fun s => s.item_name == k'))))).flatten).flatten)
        = (findRuns (sortByStart (l.filter (fun s => s.item_name == k)))).flatten ++
          (((ks.map (fun k' =>
            findRuns (sortByStart (l.filter (fun s => s.item_name == k'))))).flatten).flatten) := by
      simp
    have htail :
        ((((ks.map (fun k' =>
            findRuns (sortByStart (l.filter (fun s => s.item_name == k'))))).flatten).flatten).Perm
          (l.filter (fun s => !(s.item_name == k)))) := by
      rw [hmapeq]
      exact ihrest
    rw [hsplit]
    exact (List.Perm.append hhead htail).trans (List.filter_append_perm _ l)

/-- **C3.** The merge planner partitions its input: the concatenation of
the returned groups is a permutation of the input list, and the empty
input gives the empty output. -/
theorem C3_merge_planner_partition (slots : List TimeSlot) :
    ((find_mergeable_groups slots).flatten).Perm slots ∧
    find_mergeable_groups ([] : List TimeSlot) = [] := by
  constructor
  · by_cases h : slots.isEmpty
    · have : slots = [] := List.isEmpty_iff.mp h
      simp [find_mergeable_groups, this]
    · unfold find_mergeable_groups
      rw [if_neg h]
      apply flatten_runs_perm
      · exact List.nodup_dedup _
      · intro x hx
        exact List.mem_dedup.mpr (List.mem_map_of_mem TimeSlot.item_name hx)
  · simp [find_mergeable_groups]

theorem any_filter_and (db : List MeetingRecord) (p q : MeetingRecord → Bool) :
    (db.filter p).any q = db.any (fun r => p r && q r) := by
  induction db with
  | nil => rfl
  | cons r rest ih =>
    by_cases h : p r
    · simp [List.filter_cons, h, List.any_cons, ih]
    · simp [List.filter_cons, h, List.any_cons, ih]

theorem store_with_time_slot_eq (db : List MeetingRecord) (form : FormSubmission)
    (meeting_id room_name room_id : String) (slot : TimeSlot) (opn opid nowStr : String) :
    store_meeting_with_time_slot db form meeting_id room_name room_id slot opn opid nowStr =
    (if db.any (ledger_matches form.entry.token slot.scheduled_label
        form.entry.reservation_status_fsf_field) then db
     else db ++ [mkMeetingRecord form meeting_id room_name room_id
        (to_rfc3339 slot.start_time) slot.scheduled_label nowStr opn opid]) := by
  simp only [store_meeting_with_time_slot, find_all_meetings_by_token, any_filter_and]
  rfl

theorem mkMeetingRecord_matches (form : FormSubmission) (mid rn rid sa lab now opn opid : String) :
    ledger_matches form.entry.token lab form.entry.reservation_status_fsf_field
      (mkMeetingRecord form mid rn rid sa lab now opn opid) = true := by
  simp [ledger_matches, mkMeetingRecord]

theorem countP_zero_of_not_any (db : List MeetingRecord) (c : MeetingRecord → Bool)
    (h : db.any c = false) : db.countP c = 0 := by
  rw [List.countP_eq_zero]
  intro a ha
  exact (List.any_eq_false.mp h) a ha

theorem sortByStart_eq_nil_iff (l : List TimeSlot) : sortByStart l = [] ↔ l = [] := by
  constructor
  · intro h
    have hp := sortByStart_perm l
    rw [h] at hp
    exact hp.symm.eq_nil
  · intro h
    simp [h, sortByStart]

theorem store_merged_eq (db : List MeetingRecord) (form : FormSubmission)
    (mid rn rid : String) (slots : List TimeSlot) (opn opid nowStr : String)
    (first : TimeSlot) (rest : List TimeSlot) (h : sortByStart slots = first :: rest) :
    store_merged_meeting db form mid rn rid slots opn opid nowStr =
    some (if db.any (ledger_matches form.entry.token (merged_scheduled_label slots)
        form.entry.reservation_status_fsf_field) then db
      else db ++ [mkMeetingRecord form mid rn rid (to_rfc3339 first.start_time)
        (merged_scheduled_label slots) nowStr opn opid]) := by
  unfold store_merged_meeting
  rw [h]
  simp only [find_all_meetings_by_token, any_filter_and]
  rw [apply_ite some]
  rfl

/-- **C1.** The ledger store is idempotent.  For
`store_meeting_with_time_slot` (no hypothesis needed): the number of rows
carrying the stored `(token, scheduled_label, status)` identity becomes
`1` when no such row existed and stays unchanged otherwise; the new state
is either exactly the old one (no-op) or the old one plus exactly one
appended row; and storing the same record again is a no-op.  For
`store_merged_meeting` (which `unwrap`s, hence needs a non-empty slot
list): the same three facts, with the combined merged label as the
identity. -/
theorem C1_ledger_store_idempotent (db : List MeetingRecord) (form : FormSubmission)
    (meeting_id room_name room_id : String) (slot : TimeSlot) (slots : List TimeSlot)
    (opn opid nowStr : String) :
    ((store_meeting_with_time_slot db form meeting_id room_name room_id slot opn opid nowStr =
        if db.any (ledger_matches form.entry.token slot.scheduled_label
            form.entry.reservation_status_fsf_field) then db
        else db ++ [mkMeetingRecord form meeting_id room_name room_id
          (to_rfc3339 slot.start_time) slot.scheduled_label nowStr opn opid]) ∧
     ((store_meeting_with_time_slot db form meeting_id room_name room_id slot opn opid
          nowStr).countP (ledger_matches form.entry.token slot.scheduled_label
            form.entry.reservation_status_fsf_field) =
        if db.any (ledger_matches form.entry.token slot.scheduled_label
            form.entry.reservation_status_fsf_field) then
          db.countP (ledger_matches form.entry.token slot.scheduled_label
            form.entry.reservation_status_fsf_field)
        else 1) ∧
     store_meeting_with_time_slot
        (store_meeting_with_time_slot db form meeting_id room_name room_id slot opn opid nowStr)
        form meeting_id room_name room_id slot opn opid nowStr =
       store_meeting_with_time_slot db form meeting_id room_name room_id slot opn opid nowStr)
    ∧
    (slots ≠ [] →
      ∃ db1, store_merged_meeting db form meeting_id room_name room_id slots opn opid nowStr =
          some db1 ∧
        db1.countP (ledger_matches form.entry.token (merged_scheduled_label slots)
            form.entry.reservation_status_fsf_field) =
          (if db.any (ledger_matches form.entry.token (merged_scheduled_label slots)
              form.entry.reservation_status_fsf_field) then
            db.countP (ledger_matches form.entry.token (merged_scheduled_label slots)
              form.entry.reservation_status_fsf_field)
          else 1) ∧
        store_merged_meeting db1 form meeting_id room_name room_id slots opn opid nowStr =
          some db1) := by
  set c := ledger_matches form.entry.token slot.scheduled_label
    form.entry.reservation_status_fsf_field with hc
  refine ⟨⟨store_with_time_slot_eq db form meeting_id room_name room_id slot opn opid nowStr,
    ?_, ?_⟩, ?_⟩
  · rw [store_with_time_slot_eq]
    by_cases h : db.any c
    · simp [h]
    · have h0 : db.countP c = 0 :=
        countP_zero_of_not_any db c (by simpa using h)
      simp [h, List.countP_append, h0, List.countP_cons, hc, mkMeetingRecord_matches]
  · rw [store_with_time_slot_eq, store_with_time_slot_eq]
    by_cases h : db.any c
    · simp [h]
    · have hmem : (db ++ [mkMeetingRecord form meeting_id room_name room_id
          (to_rfc3339 slot.start_time) slot.scheduled_label nowStr opn opid]).any c = true := by
        rw [List.any_append]
        simp [mkMeetingRecord_matches, hc]
      simp [h, hmem]
  · intro hne
    set cm := ledger_matches form.entry.token (merged_scheduled_label slots)
      form.entry.reservation_status_fsf_field with hcm
    obtain ⟨first, rest, hsort⟩ : ∃ first rest, sortByStart slots = first :: rest := by
      cases hs : sortByStart slots with
      | nil => exact absurd ((sortByStart_eq_nil_iff slots).mp hs) hne
      | cons a as => exact ⟨a, as, rfl⟩
    rw [store_merged_eq db form meeting_id room_name room_id slots opn opid nowStr first rest hsort]
    by_cases h : db.any cm
    · refine ⟨db, by simp [h], by simp [h], ?_⟩
      rw [store_merged_eq db form meeting_id room_name room_id slots opn opid nowStr
        first rest hsort]
      simp [h]
    · refine ⟨db ++ [mkMeetingRecord form meeting_id room_name room_id
        (to_rfc3339 first.start_time) (merged_scheduled_label slots) nowStr opn opid],
        by simp [h], ?_, ?_⟩
      · have h0 : db.countP cm = 0 :=
          countP_zero_of_not_any db cm (by simpa using h)
        simp [h, List.countP_append, h0, List.countP_cons, hcm, mkMeetingRecord_matches]
      · rw [store_merged_eq _ form meeting_id room_name room_id slots opn opid nowStr
          first rest hsort]
        have hmem : ((db ++ [mkMeetingRecord form meeting_id room_name room_id
            (to_rfc3339 first.start_time) (merged_scheduled_label slots) nowStr opn opid]).any cm)
            = true := by
          rw [List.any_append]
          simp [mkMeetingRecord_matches, hcm]
        simp [h, hmem]

theorem cancel_loop_eq (token nowStr : String) (db : List MeetingRecord) :
    cancel_loop token nowStr db =
      (db.map (fun r => if cancel_target token r then cancelRow nowStr r else r),
       (db.filter (cancel_target token)).map (fun r => (r.meeting_id, r.room_id))) := by
  induction db with
  | nil => rfl
  | cons r rest ih =>
    by_cases h : cancel_target token r
    · simp [cancel_loop, ih, h]
    · simp [cancel_loop, ih, h]

/-- **C2 (counterexample).** On the two-row ledger above, `cancel`
returns the pair `("m1", "r1")` twice — the result is not duplicate-free,
contradicting "returns exactly the set of `(meeting_id, room_id)` pairs
… once each" read over every ledger state. -/
theorem C2_counterexample_duplicate_pairs :
    (cancel_meeting [c2row1, c2row2] "tok" "2035-02-01").2 = [("m1", "r1"), ("m1", "r1")] ∧
    ¬ ((cancel_meeting [c2row1, c2row2] "tok" "2035-02-01").2).Nodup := by
  constructor
  · rfl
  · decide

/-- **C2 (amended).** `cancel(token)` rewrites exactly the rows whose
token matches and whose status is one of the `RESERVED` synonyms —
setting the `CANCELLED` synonym `"已取消"` and `cancelled_at = now` — and
leaves every other row unchanged; it returns the `(meeting_id, room_id)`
pairs of the transitioned rows, one entry per row in ledger order (so
already-cancelled rows are neither modified nor returned, a token with no
`RESERVED` rows yields the empty list, and a pair can repeat only when
two distinct transitioned rows carry the same pair). -/
theorem C2_cancel_transitions_reserved_rows (db : List MeetingRecord)
    (token nowStr : String) :
    (cancel_meeting db token nowStr).2 =
      (db.filter (cancel_target token)).map (fun r => (r.meeting_id, r.room_id)) ∧
    (cancel_meeting db token nowStr).1 =
      db.map (fun r => if cancel_target token r then cancelRow nowStr r else r) := by
  rw [cancel_meeting, cancel_loop_eq]
  exact ⟨rfl, rfl⟩

theorem labelDurationMins_eq_spec (label : String) :
    labelDurationMins label = duration_minutes_spec label := by
  unfold labelDurationMins duration_minutes_spec
  by_cases h1 : 1 < (splitC ' ' label.data).length
  · simp only [h1, if_true]
    by_cases h2 : 1 < (splitC '-' ((splitC ' ' label.data).getD 1 [])).length
    · simp only [h2, if_true]
      set s := (parse_hm ((splitC '-' ((splitC ' ' label.data).getD 1 [])).getD 0 [])).1 * 60 +
        (parse_hm ((splitC '-' ((splitC ' ' label.data).getD 1 [])).getD 0 [])).2
      set e := (parse_hm ((splitC '-' ((splitC ' ' label.data).getD 1 [])).getD 1 [])).1 * 60 +
        (parse_hm ((splitC '-' ((splitC ' ' label.data).getD 1 [])).getD 1 [])).2
      by_cases h3 : s ≤ e
      · simp [h3, ge_iff_le]
      · simp only [h3, if_false, ge_iff_le, if_neg h3]
        ring
    · simp [h2]
  · simp [h1]

/-- **C6.** For every raw slot entry whose `scheduled_at` parses to the
start candidate `t`, a successful run of the slot parser yields a slot
whose end instant is the start candidate plus the label-derived duration:
`e - s` minutes when `e >= s`, `1440 + e - s` minutes otherwise, and 60
minutes when the label is unparseable (no time part or no dash) — the
duration formula being `duration_minutes_spec`, taken from the spec's
words.  (The end candidate survives unchanged through the past-time
branches.) -/
theorem C6_end_candidate_is_start_plus_duration (rfc : String → Option Int) (now : Int)
    (r : FormField1Item) (t : Int) (slot : TimeSlot)
    (hrfc : rfc r.scheduled_at = some t)
    (hok : parse_time_slot rfc now r = .ok slot) :
    slot.end_time = t + 60 * duration_minutes_spec r.scheduled_label := by
  unfold parse_time_slot at hok
  rw [hrfc] at hok
  dsimp only at hok
  by_cases h1 : t < now ∧ t + labelDurationMins r.scheduled_label * 60 < now
  · simp [h1] at hok
  · rw [if_neg h1] at hok
    by_cases h2 : t < now
    · rw [if_pos h2] at hok
      cases hok
      simp [labelDurationMins_eq_spec, mul_comm]
    · rw [if_neg h2] at hok
      cases hok
      simp [labelDurationMins_eq_spec, mul_comm]

/-- **C10.** The slot parser fails exactly when `scheduled_at` does not
parse as RFC-3339 or when both computed instants (start candidate and
start candidate plus label duration) lie before `now`; no other malformed
`scheduled_label` can cause failure — its unparseable fragments are read
as `0` or the duration falls back to the default, and an `Ok` slot is
returned. -/
theorem C10_parse_error_exactly (rfc : String → Option Int) (now : Int)
    (r : FormField1Item) :
    parseFails rfc now r = true ↔
      (rfc r.scheduled_at = none ∨
        ∃ t, rfc r.scheduled_at = some t ∧ t < now ∧
          t + labelDurationMins r.scheduled_label * 60 < now) := by
  unfold parseFails parse_time_slot
  cases hr : rfc r.scheduled_at with
  | none => simp
  | some t =>
    dsimp only
    by_cases h1 : t < now ∧ t + labelDurationMins r.scheduled_label * 60 < now
    · simp [h1]
    · rw [if_neg h1]
      by_cases h2 : t < now
      · simp only [h2, if_true]
        simp [h1, h2]
        omega
      · simp [h1, h2]

/-- **C7 (counterexample).** A successful run of the slot parser can
return a slot with `end_instant = start_instant`: the zero-duration label
`"2035-01-01 09:00-09:00"` parses successfully (no clamping involved) and
violates `end_instant > start_instant`. -/
theorem C7_counterexample_zero_duration :
    parse_time_slot (fun _ => some 1000) 0 rC7 = .ok slotC7 ∧
    ¬ (slotC7.end_time > slotC7.start_time) := by
  constructor
  · rfl
  · decide

/-- **C7 (amended).** A `TimeSlot` produced by a successful run of the
slot parser satisfies `end_instant > start_instant` provided the
label-derived duration is positive and, in the past-time-clamping case,
the preserved end candidate exceeds `now + 2` minutes — i.e. either the
start candidate is not in the past, or the end candidate lies beyond the
clamped start `now + 2` minutes. -/
theorem C7_end_after_start (rfc : String → Option Int) (now : Int)
    (r : FormField1Item) (t : Int) (slot : TimeSlot)
    (hrfc : rfc r.scheduled_at = some t)
    (hok : parse_time_slot rfc now r = .ok slot)
    (hdur : 0 < labelDurationMins r.scheduled_label)
    (hcl : now ≤ t ∨ now + 2 * 60 < t + labelDurationMins r.scheduled_label * 60) :
    slot.end_time > slot.start_time := by
  unfold parse_time_slot at hok
  rw [hrfc] at hok
  dsimp only at hok
  by_cases h1 : t < now ∧ t + labelDurationMins r.scheduled_label * 60 < now
  · simp [h1] at hok
  · rw [if_neg h1] at hok
    by_cases h2 : t < now
    · rw [if_pos h2] at hok
      cases hok
      have hcl' : now + 2 * 60 < t + labelDurationMins r.scheduled_label * 60 := by
        rcases hcl with h | h
        · omega
        · exact h
      simpa using hcl'
    · rw [if_neg h2] at hok
      cases hok
      have : 0 < labelDurationMins r.scheduled_label * 60 := by positivity
      simp only [TimeSlot.mk.injEq] at *
      omega

theorem C7_end_after_start_witness :
    parse_time_slot (fun _ => some 200) 0 rW7 = .ok slotW7 ∧
    0 < labelDurationMins rW7.scheduled_label ∧
    slotW7.end_time > slotW7.start_time :=
  ⟨rfl, by decide,
    C7_end_after_start (fun _ => some 200) 0 rW7 200 slotW7 rfl rfl (by decide)
      (Or.inl (by decide))⟩

theorem C6_end_candidate_witness :
    parse_time_slot (fun _ => some 0) 0 rW6 = .ok slotW6 ∧
    slotW6.end_time = 0 + 60 * duration_minutes_spec rW6.scheduled_label :=
  ⟨rfl, C6_end_candidate_is_start_plus_duration (fun _ => some 0) 0 rW6 0 slotW6 rfl rfl⟩

theorem C1_ledger_store_idempotent_witness :
    ([slotW1] ≠ ([] : List TimeSlot)) ∧
    (∃ db1, store_merged_meeting [] formW1 "m1" "Room A" "r1" [slotW1] "op" "opid" "now" =
        some db1 ∧
      db1.countP (ledger_matches formW1.entry.token (merged_scheduled_label [slotW1])
          formW1.entry.reservation_status_fsf_field) =
        (if ([] : List MeetingRecord).any (ledger_matches formW1.entry.token
            (merged_scheduled_label [slotW1]) formW1.entry.reservation_status_fsf_field) then
          ([] : List MeetingRecord).countP (ledger_matches formW1.entry.token
            (merged_scheduled_label [slotW1]) formW1.entry.reservation_status_fsf_field)
        else 1) ∧
      store_merged_meeting db1 formW1 "m1" "Room A" "r1" [slotW1] "op" "opid" "now" =
        some db1) :=
  ⟨by decide,
    (C1_ledger_store_idempotent [] formW1 "m1" "Room A" "r1" slotW1 [slotW1]
      "op" "opid" "now").2 (by decide)⟩

/-! ### Orchestrator theorems (claims C4 and C5) -/

theorem create_merged_success (client : ClientOracle) (dept : String)
    (form : FormSubmission) (slots : List TimeSlot) (ufn : String) (r : MeetingResult)
    (h : create_merged_meeting client dept form slots ufn = .ok r) : r.success = true := by
  unfold create_merged_meeting at h
  split at h
  · exact absurd h (by simp)
  · dsimp only at h
    split at h
    · split at h
      · cases h; rfl
      · cases h; rfl
    · exact absurd h (by simp)

theorem create_with_time_slot_success (client : ClientOracle) (dept : String)
    (form : FormSubmission) (slot : TimeSlot) (ufn : String) (r : MeetingResult)
    (h : create_meeting_with_time_slot client dept form slot ufn = .ok r) :
    r.success = true := by
  unfold create_meeting_with_time_slot at h
  dsimp only at h
  split at h
  · split at h
    · cases h; rfl
    · cases h; rfl
  · exact absurd h (by simp)

/-- With simulation off, the per-group loop is a `filterMap` over the
groups: each successful create contributes its result in order, each
failed create only clears the success flag, and processing always reaches
the end of the list. -/
theorem process_groups_spec (state : AppState)
    (hsim : state.skip_meeting_creation = false) (form : FormSubmission)
    (rid nowStr : String) :
    ∀ (gs : List (List TimeSlot)) (i : Nat) (db : List MeetingRecord) (all : Bool)
      (acc : List MeetingResult),
      (process_groups state form rid nowStr i db all acc gs).1 =
        acc ++ gs.filterMap
          (group_result state.client state.dept_field_name state.user_field_name form) ∧
      (process_groups state form rid nowStr i db all acc gs).2.1 =
        (all && gs.all (fun g =>
          !(group_failed state.client state.dept_field_name state.user_field_name form g))) := by
  intro gs
  induction gs with
  | nil => intro i db all acc; simp [process_groups]
  | cons g gs ih =>
    intro i db all acc
    by_cases h2 : 1 < g.length
    · have hgo : group_outcome state.client state.dept_field_name state.user_field_name
          form g = some (create_merged_meeting state.client state.dept_field_name form g
            state.user_field_name) := by
        unfold group_outcome
        rw [if_pos h2]
      cases hc : create_merged_meeting state.client state.dept_field_name form g
          state.user_field_name with
      | error e =>
        have hgr : group_result state.client state.dept_field_name state.user_field_name
            form g = none := by
          unfold group_result
          rw [hgo, hc]
        have hgf : group_failed state.client state.dept_field_name state.user_field_name
            form g = true := by
          unfold group_failed
          rw [hgo, hc]
        have hstep : process_groups state form rid nowStr i db all acc (g :: gs) =
            process_groups state form rid nowStr (i + 1) db false acc gs := by
          simp only [process_groups, h2, if_true, hsim, Bool.false_eq_true, if_false, hc]
        rw [hstep, (ih _ _ _ _).1, (ih _ _ _ _).2]
        constructor
        · simp [List.filterMap_cons, hgr]
        · simp [List.all_cons, hgf]
      | ok result =>
        have hsucc := create_merged_success state.client state.dept_field_name form g
          state.user_field_name result hc
        have hgr : group_result state.client state.dept_field_name state.user_field_name
            form g = some result := by
          unfold group_result
          rw [hgo, hc]
        have hgf : group_failed state.client state.dept_field_name state.user_field_name
            form g = false := by
          unfold group_failed
          rw [hgo, hc]
        have hstep : ∃ db2, process_groups state form rid nowStr i db all acc (g :: gs) =
            process_groups state form rid nowStr (i + 1) db2 (all && result.success)
              (acc ++ [result]) gs := by
          cases hmid : result.meeting_id with
          | some mid =>
            refine ⟨(store_merged_meeting db form mid result.room_name
              (get_room_id state form) g
              (get_operator_info state.client form state.user_field_name).1
              (get_operator_info state.client form state.user_field_name).2 nowStr).getD db,
              ?_⟩
            simp only [process_groups, h2, if_true, hsim, Bool.false_eq_true, if_false, hc,
              hmid]
          | none =>
            refine ⟨db, ?_⟩
            simp only [process_groups, h2, if_true, hsim, Bool.false_eq_true, if_false, hc,
              hmid]
        obtain ⟨db2, hstep⟩ := hstep
        rw [hstep, (ih _ _ _ _).1, (ih _ _ _ _).2]
        constructor
        · simp [List.filterMap_cons, hgr]
        · simp [List.all_cons, hgf, hsucc, Bool.and_assoc]
    · by_cases h1len : g.length = 1
      · have hgo : group_outcome state.client state.dept_field_name state.user_field_name
            form g = some (create_meeting_with_time_slot state.client state.dept_field_name
              form (g.headD default) state.user_field_name) := by
          unfold group_outcome
          rw [if_neg h2, if_pos h1len]
        cases hc : create_meeting_with_time_slot state.client state.dept_field_name form
            (g.headD default) state.user_field_name with
        | error e =>
          have hgr : group_result state.client state.dept_field_name state.user_field_name
              form g = none := by
            unfold group_result
            rw [hgo, hc]
          have hgf : group_failed state.client state.dept_field_name
              state.user_field_name form g = true := by
            unfold group_failed
            rw [hgo, hc]
          have hstep : process_groups state form rid nowStr i db all acc (g :: gs) =
              process_groups state form rid nowStr (i + 1) db false acc gs := by
            simp only [process_groups, h2, h1len, lt_self_iff_false, eq_self_iff_true,
              if_true, if_false, hsim, Bool.false_eq_true, hc]
          rw [hstep, (ih _ _ _ _).1, (ih _ _ _ _).2]
          constructor
          · simp [List.filterMap_cons, hgr]
          · simp [List.all_cons, hgf]
        | ok result =>
          have hsucc := create_with_time_slot_success state.client state.dept_field_name
            form (g.headD default) state.user_field_name result hc
          have hgr : group_result state.client state.dept_field_name state.user_field_name
              form g = some result := by
            unfold group_result
            rw [hgo, hc]
          have hgf : group_failed state.client state.dept_field_name
              state.user_field_name form g = false := by
            unfold group_failed
            rw [hgo, hc]
          have hstep : ∃ db2, process_groups state form rid nowStr i db all acc (g :: gs) =
              process_groups state form rid nowStr (i + 1) db2 (all && result.success)
                (acc ++ [result]) gs := by
            cases hmid : result.meeting_id with
            | some mid =>
              refine ⟨store_meeting_with_time_slot db form mid result.room_name
                (get_room_id state form) (g.headD default)
                (get_operator_info state.client form state.user_field_name).1
                (get_operator_info state.client form state.user_field_name).2 nowStr, ?_⟩
              simp only [process_groups, h2, h1len, lt_self_iff_false, eq_self_iff_true,
                if_true, if_false, hsim, Bool.false_eq_true, hc, hmid]
            | none =>
              refine ⟨db, ?_⟩
              simp only [process_groups, h2, h1len, lt_self_iff_false, eq_self_iff_true,
                if_true, if_false, hsim, Bool.false_eq_true, hc, hmid]
          obtain ⟨db2, hstep⟩ := hstep
          rw [hstep, (ih _ _ _ _).1, (ih _ _ _ _).2]
          constructor
          · simp [List.filterMap_cons, hgr]
          · simp [List.all_cons, hgf, hsucc, Bool.and_assoc]
      · have hgr : group_result state.client state.dept_field_name state.user_field_name
            form g = none := by
          unfold group_result group_outcome
          rw [if_neg h2, if_neg h1len]
        have hgf : group_failed state.client state.dept_field_name state.user_field_name
            form g = false := by
          unfold group_failed group_outcome
          rw [if_neg h2, if_neg h1len]
        have hstep : process_groups state form rid nowStr i db all acc (g :: gs) =
            process_groups state form rid nowStr (i + 1) db all acc gs := by
          simp only [process_groups, h2, h1len, if_false]
        rw [hstep, (ih _ _ _ _).1, (ih _ _ _ _).2]
        constructor
        · simp [List.filterMap_cons, hgr]
        · simp [List.all_cons, hgf]

/-- **C5 (counterexample).** A reservation submission with a single valid
slot (which forms one fully merged group) whose upstream create fails is
answered with HTTP 500, not with a 200 response carrying
`success = false`; no ledger row is written. -/
theorem C5_counterexample_fully_merged_abort :
    (handle_form_submission stateC5 (fun _ => some 1000) 0 "T" [] formC5).1 =
      .error 500 ∧
    (handle_form_submission stateC5 (fun _ => some 1000) 0 "T" [] formC5).2 = [] :=
  ⟨rfl, rfl⟩

/-- **C5 (amended).** Whenever the planned runs do not collapse into the
single fully-merged group (and simulation is off), the reservation path
never aborts: the handler returns `Ok` (HTTP 200); each run whose
`CreateMeeting` succeeds contributes its outcome to `meetings` in order
(runs whose create failed are skipped, not itemized); and the overall
`success` is the conjunction of "no run's create failed" and "at least
one run produced a meeting id".  In the remaining case — all slots
merging into one single group — a `CreateMeeting` failure instead aborts
the submission with the upstream error status (see the
counterexample). -/
theorem C5_create_failure_continues (state : AppState) (rfc : String → Option Int)
    (nowI : Int) (nowStr : String) (db : List MeetingRecord) (form : FormSubmission)
    (time_slots : List TimeSlot)
    (hsim : state.skip_meeting_creation = false)
    (hdisp : containsSub (lowercase form.entry.reservation_status_fsf_field)
      "取消".data = false)
    (hparse : parse_all rfc nowI form.entry.field_1 = .ok time_slots)
    (hnotfull : ¬ ((find_mergeable_groups time_slots).length = 1 ∧
      ((find_mergeable_groups time_slots).headD []).length = time_slots.length)) :
    ∃ resp, (handle_form_submission state rfc nowI nowStr db form).1 = .ok resp ∧
      resp.meetings = (find_mergeable_groups time_slots).filterMap
        (group_result state.client state.dept_field_name state.user_field_name form) ∧
      resp.success = (((find_mergeable_groups time_slots).all (fun g =>
          !(group_failed state.client state.dept_field_name state.user_field_name form g))) &&
        decide (0 < (((find_mergeable_groups time_slots).filterMap
          (group_result state.client state.dept_field_name state.user_field_name form)).filter
            (fun r => r.meeting_id.isSome)).length)) := by
  have hp := process_groups_spec state hsim form (get_room_id state form) nowStr
    (find_mergeable_groups time_slots) 0 db true []
  have hmain : (handle_form_submission state rfc nowI nowStr db form).1 =
      .ok (mk_final_response
        (process_groups state form (get_room_id state form) nowStr 0 db true []
          (find_mergeable_groups time_slots)).1
        (process_groups state form (get_room_id state form) nowStr 0 db true []
          (find_mergeable_groups time_slots)).2.1
        time_slots.length) := by
    unfold handle_form_submission
    simp only [hdisp, Bool.false_eq_true, if_false, hparse]
    rw [if_neg hnotfull]
  refine ⟨_, hmain, ?_, ?_⟩
  · simp [mk_final_response, hp.1]
  · simp [mk_final_response, hp.1, hp.2]

theorem C5_create_failure_continues_witness :
    ∃ resp, (handle_form_submission stateC5w (fun _ => some 1000) 0 "T" [] formC5w).1 =
        .ok resp ∧
      resp.meetings = (find_mergeable_groups [slotC5a, slotC5b]).filterMap
        (group_result stateC5w.client stateC5w.dept_field_name stateC5w.user_field_name
          formC5w) ∧
      resp.success = (((find_mergeable_groups [slotC5a, slotC5b]).all (fun g =>
          !(group_failed stateC5w.client stateC5w.dept_field_name stateC5w.user_field_name
            formC5w g))) &&
        decide (0 < (((find_mergeable_groups [slotC5a, slotC5b]).filterMap
          (group_result stateC5w.client stateC5w.dept_field_name stateC5w.user_field_name
            formC5w)).filter (fun r => r.meeting_id.isSome)).length)) :=
  C5_create_failure_continues stateC5w (fun _ => some 1000) 0 "T" [] formC5w
    [slotC5a, slotC5b] rfl (by decide) rfl (by decide)

/-- **C4 (evaluation at the failing inputs).** The handler dispatches on
whether the lowercased status contains `"取消"`, with no rejection of
other values: the unknown status `"UNKNOWN_STATUS"` runs the reservation
path to completion — HTTP 200, `success = true`, and a ledger row whose
status column is the unknown value verbatim — instead of the
`BadRequest` the claim (and the repository's own
`test_form_with_unknown_status`) requires; and a reservation with no
slots at all yields HTTP 200 with `success = false` instead of 400.
(Parse failures and entirely-past slots do return 400, per C10.) -/
theorem C4_unknown_status_not_rejected :
    handle_form_submission stateC4 (fun _ => some 1000) 0 "T" [] formC4 =
      (.ok { success := true
             message := "Created 1 meetings (1 merged) from 1 time slots"
             meetings_count := 1
             meetings := [{ meeting_id := some "m-c4", merged := true
                            room_name := "Conference Room A"
                            time_slots := ["2035-03-30 09:00-10:00"], success := true }] },
       [{ entry_token := "unknown_status_token", form_id := "test_form"
          form_name := "Test Form", subject := "Test Meeting"
          room_name := "Conference Room A", scheduled_at := "1000"
          scheduled_label := "2035-03-30 09:00-10:00", status := "UNKNOWN_STATUS"
          meeting_id := "m-c4", room_id := "room1", created_at := "T"
          cancelled_at := "", operator_name := "default"
          operator_id := "default-id" }]) ∧
    (handle_form_submission stateC4 (fun _ => some 1000) 0 "T" [] formC4empty).1 =
      .ok { success := false, message := "Created 0 meetings from 0 time slots"
            meetings_count := 0, meetings := [] } :=
  ⟨rfl, rfl⟩

/-- **C9.** When a webhook auth token is configured, every request whose
`auth` query parameter is missing or different is rejected with HTTP 401
and the ledger is untouched (no processing happens); when no token is
configured, the request is processed exactly as without the gate. -/
theorem C9_webhook_auth_gate (webhook_auth_token auth_param : Option String)
    (state : AppState) (rfc : String → Option Int) (nowI : Int) (nowStr : String)
    (db : List MeetingRecord) (form : FormSubmission) :
    (∀ t, webhook_auth_token = some t → auth_param ≠ some t →
      handle_form_submission_with_auth webhook_auth_token auth_param state rfc nowI nowStr
        db form = (.error 401, db)) ∧
    (webhook_auth_token = none →
      handle_form_submission_with_auth webhook_auth_token auth_param state rfc nowI nowStr
        db form = handle_form_submission state rfc nowI nowStr db form) := by
  constructor
  · intro t htok hne
    unfold handle_form_submission_with_auth webhook_auth_check
    rw [htok]
    dsimp only
    have : (auth_param == some t) = false := by
      cases auth_param with
      | none => rfl
      | some a =>
        have ha : a ≠ t := fun h => hne (by rw [h])
        simp [ha]
    rw [this]
    rfl
  · intro htok
    unfold handle_form_submission_with_auth webhook_auth_check
    rw [htok]
    rfl

theorem C9_webhook_auth_gate_witness :
    handle_form_submission_with_auth (some "secret") none stateC9 (fun _ => none) 0 "T" []
      formC9 = (.error 401, []) :=
  (C9_webhook_auth_gate (some "secret") none stateC9 (fun _ => none) 0 "T" [] formC9).1
    "secret" rfl (by simp)

/-! ### Signer theorems (claim C8) -/

theorem wordBytes_lt (w : Nat) : ∀ b ∈ wordBytes w, b < 256 := by
  intro b hb
  simp only [wordBytes, List.mem_cons, List.not_mem_nil, or_false] at hb
  rcases hb with rfl | rfl | rfl | rfl <;> exact Nat.mod_lt _ (by decide)

theorem sha256_length (msg : List Nat) : (sha256 msg).length = 32 := by
  simp [sha256, wordBytes]

theorem sha256_lt (msg : List Nat) : ∀ b ∈ sha256 msg, b < 256 := by
  unfold sha256
  simp only [List.forall_mem_append]
  exact ⟨⟨⟨⟨⟨⟨⟨wordBytes_lt _, wordBytes_lt _⟩, wordBytes_lt _⟩, wordBytes_lt _⟩,
    wordBytes_lt _⟩, wordBytes_lt _⟩, wordBytes_lt _⟩, wordBytes_lt _⟩

theorem hmacSha256_length (key msg : List Nat) : (hmacSha256 key msg).length = 32 := by
  unfold hmacSha256
  exact sha256_length _

theorem hmacSha256_lt (key msg : List Nat) : ∀ b ∈ hmacSha256 key msg, b < 256 := by
  unfold hmacSha256
  exact sha256_lt _

theorem hexDigitChar_facts (n : Nat) (h : n < 16) :
    isHexDigitChar (hexDigitChar n) = true ∧ (hexDigitChar n).toNat < 128 := by
  interval_cases n <;> exact ⟨by decide, by decide⟩

theorem flatMap_pair_length (bs : List Nat) (f g : Nat → Char) :
    (bs.flatMap (fun b => [f b, g b])).length = 2 * bs.length := by
  induction bs with
  | nil => rfl
  | cons b rest ih =>
    simp only [List.flatMap_cons, List.length_append, List.length_cons,
      List.length_nil, ih]
    omega

theorem hexEncode_length (bs : List Nat) : (hexEncode bs).length = 2 * bs.length := by
  simp only [hexEncode, String.length, flatMap_pair_length]

theorem hexEncode_chars (bs : List Nat) (h : ∀ b ∈ bs, b < 256) :
    ∀ c ∈ (hexEncode bs).data, isHexDigitChar c = true ∧ c.toNat < 128 := by
  intro c hc
  simp only [hexEncode] at hc
  rw [List.mem_flatMap] at hc
  obtain ⟨b, hb, hcb⟩ := hc
  have hblt := h b hb
  simp only [List.mem_cons, List.not_mem_nil, or_false] at hcb
  rcases hcb with rfl | rfl
  · exact hexDigitChar_facts (b / 16) (by omega)
  · exact hexDigitChar_facts (b % 16) (by omega)

theorem flatMap_utf8_ascii (cs : List Char) (h : ∀ c ∈ cs, c.toNat < 128) :
    cs.flatMap utf8Char = cs.map Char.toNat := by
  induction cs with
  | nil => rfl
  | cons c rest ih =>
    have hc := h c (by simp)
    simp only [List.flatMap_cons, List.map_cons, utf8Char, hc, if_true,
      ih (fun x hx => h x (by simp [hx]))]
    rfl

theorem b64DecodeChar_b64Char (v : Nat) (hv : v < 64) :
    b64DecodeChar (b64Char v) = some v := by
  interval_cases v <;> rfl

theorem b64Char_ne_pad (v : Nat) (hv : v < 64) : b64Char v ≠ '=' := by
  interval_cases v <;> decide

theorem b64_roundtrip (bs : List Nat) (h : ∀ b ∈ bs, b < 256) :
    b64Decode (b64Encode bs) = some bs := by
  induction bs using b64Encode.induct with
  | case1 => rfl
  | case2 b1 =>
    have h1 : b1 < 256 := h b1 (by simp)
    have d1 := b64DecodeChar_b64Char (b1 / 4) (by omega)
    have d2 := b64DecodeChar_b64Char (b1 % 4 * 16) (by omega)
    simp [b64Encode, b64Decode, d1, d2]
    omega
  | case3 b1 b2 =>
    have h1 : b1 < 256 := h b1 (by simp)
    have h2 : b2 < 256 := h b2 (by simp)
    have d1 := b64DecodeChar_b64Char (b1 / 4) (by omega)
    have d2 := b64DecodeChar_b64Char (b1 % 4 * 16 + b2 / 16) (by omega)
    have d3 := b64DecodeChar_b64Char (b2 % 16 * 4) (by omega)
    have ne3 := b64Char_ne_pad (b2 % 16 * 4) (by omega)
    simp [b64Encode, b64Decode, d1, d2, d3, ne3]
    omega
  | case4 b1 b2 b3 rest ih =>
    have h1 : b1 < 256 := h b1 (by simp)
    have h2 : b2 < 256 := h b2 (by simp)
    have h3 : b3 < 256 := h b3 (by simp)
    have d1 := b64DecodeChar_b64Char (b1 / 4) (by omega)
    have d2 := b64DecodeChar_b64Char (b1 % 4 * 16 + b2 / 16) (by omega)
    have d3 := b64DecodeChar_b64Char (b2 % 16 * 4 + b3 / 64) (by omega)
    have d4 := b64DecodeChar_b64Char (b3 % 64) (by omega)
    have ne3 := b64Char_ne_pad (b2 % 16 * 4 + b3 / 64) (by omega)
    have ne4 := b64Char_ne_pad (b3 % 64) (by omega)
    have ihh := ih (fun b hb => h b (by simp [hb]))
    simp [b64Encode, b64Decode, d1, d2, d3, d4, ne3, ne4, ihh]
    omega

/-- **C8.** The signer deterministically returns the base64 encoding of
the UTF-8 bytes of the lowercase hex encoding of
`HMAC-SHA256(secret_key, method\nX-TC-Key={id}&X-TC-Nonce={nonce}&X-TC-Timestamp={ts}\nuri\nbody)`
— not the raw mac — and base64-decoding the signature always recovers
exactly those bytes: a valid ASCII lowercase-hex string of length 64. -/
theorem C8_signature_is_base64_of_hex (secret_id secret_key method uri : String)
    (timestamp : Int) (nonce body : String) :
    generate_signature secret_id secret_key method uri timestamp nonce body =
      String.mk (b64Encode (utf8Encode (hexEncode (hmacSha256 (utf8Encode secret_key)
        (utf8Encode (canonical_content secret_id method uri timestamp nonce body)))))) ∧
    b64Decode (generate_signature secret_id secret_key method uri timestamp nonce
        body).data =
      some (utf8Encode (hexEncode (hmacSha256 (utf8Encode secret_key)
        (utf8Encode (canonical_content secret_id method uri timestamp nonce body))))) ∧
    utf8Encode (hexEncode (hmacSha256 (utf8Encode secret_key)
        (utf8Encode (canonical_content secret_id method uri timestamp nonce body)))) =
      (hexEncode (hmacSha256 (utf8Encode secret_key)
        (utf8Encode (canonical_content secret_id method uri timestamp nonce
          body)))).data.map Char.toNat ∧
    (hexEncode (hmacSha256 (utf8Encode secret_key)
      (utf8Encode (canonical_content secret_id method uri timestamp nonce
        body)))).length = 64 ∧
    (hexEncode (hmacSha256 (utf8Encode secret_key)
      (utf8Encode (canonical_content secret_id method uri timestamp nonce
        body)))).data.all isHexDigitChar = true := by
  set mac := hmacSha256 (utf8Encode secret_key)
    (utf8Encode (canonical_content secret_id method uri timestamp nonce body)) with hmac
  have hmaclt : ∀ b ∈ mac, b < 256 := hmacSha256_lt _ _
  have hchars := hexEncode_chars mac hmaclt
  have hascii : ∀ c ∈ (hexEncode mac).data, c.toNat < 128 := fun c hc => (hchars c hc).2
  have hutf8 : utf8Encode (hexEncode mac) = (hexEncode mac).data.map Char.toNat := by
    unfold utf8Encode
    exact flatMap_utf8_ascii _ hascii
  have hbytes_lt : ∀ b ∈ utf8Encode (hexEncode mac), b < 256 := by
    rw [hutf8]
    intro b hb
    rw [List.mem_map] at hb
    obtain ⟨c, hc, rfl⟩ := hb
    exact Nat.lt_trans (hascii c hc) (by decide)
  refine ⟨rfl, ?_, hutf8, ?_, ?_⟩
  · exact b64_roundtrip _ hbytes_lt
  · rw [hexEncode_length, hmacSha256_length]
  · rw [List.all_eq_true]
    intro c hc
    exact (hchars c hc).1
